import Mathlib

/-!
Verification development for the WebCraft voxel-world subsystem.

The definitions below are a shallow embedding of the JavaScript sources:
  * `src/scripts/blocks.js`   — block templates and the mesh builder (`BLOCK.pushVertices`),
  * `src/scripts/network.js`  — the `World` container (storage, serialization, terrain
    generation, lighting) and `World.generateWorld`,
  * `src/scripts/render.js`   — the renderer (chunk streaming, frustum culling,
    `onBlockChanged`).

Modelling conventions, used throughout:
  * JavaScript numbers are modelled as exact rationals (`ℚ`) where fractional values
    occur and as `Int`/`Nat` where the program only ever holds integers.  All constant
    literals (`0.5`, `0.0045`, …) are exactly representable in binary64, and every
    arithmetic result that feeds a branch in the modelled runs is far from any rounding
    boundary, so exact arithmetic agrees with the float computation on those branches.
  * `Math.random()` is modelled as an explicit stream `rand : Nat → ℚ` of values in
    `[0, 1)` together with a cursor that is threaded through generation in call order.
  * The seeded simplex noise (`createNoise3D(alea(seed))`) and the Perlin noise
    (`perlin.js`, whose permutation table is a fixed constant) are deterministic
    functions of the seed; they are modelled as explicit function parameters
    `noise, perlin : ℚ → ℚ → ℚ → ℚ` that are the same across runs with the same seed.
  * `Math.sqrt(s) <= c` (for `c ≥ 0`) is modelled as `s ≤ c^2`: `Math.sqrt` is
    correctly rounded and monotone, so the two tests agree on every float input.
    Where the square root value itself is stored (chunk priorities) it is modelled
    by a function parameter `sqrtF : ℚ → ℚ`.
  * JavaScript objects holding block data are modelled by the closed record `Block`;
    the `metadata` field attached by `setBlock` ({...block, metadata}) carries no
    information used by any modelled operation and is omitted.
-/

namespace WebCraft

/-- A block template (`blocks.js`).  The `texture` closure only returns atlas
rectangles and does not influence which faces are emitted, so it is not modelled;
the `xray` / `rentgenView` markers tested by `World.validateBlock` and
`World.setBlock` are modelled as boolean fields that are `false` on every
template defined in `blocks.js`. -/
structure Block where
  id : Nat
  spawnable : Bool
  transparent : Bool
  selflit : Bool
  gravity : Bool
  fluid : Bool
  xray : Bool := false
  rentgenView : Bool := false
deriving DecidableEq, Repr

/-- The six face directions (`DIRECTION` in `blocks.js`). -/
inductive Direction where
  | UP | DOWN | LEFT | RIGHT | FORWARD | BACK
deriving DecidableEq, Repr

namespace BLOCK

/-- `BLOCK.AIR` (id 0); its flags coincide with the `defaultBlock` that
`BLOCK.validateBlockType` substitutes for malformed input. -/
def AIR : Block := { id := 0, spawnable := false, transparent := true, selflit := false, gravity := false, fluid := false }

/-- `BLOCK.BEDROCK` (id 1). -/
def BEDROCK : Block := { id := 1, spawnable := false, transparent := false, selflit := false, gravity := false, fluid := false }

/-- `BLOCK.DIRT` (id 2). -/
def DIRT : Block := { id := 2, spawnable := true, transparent := false, selflit := false, gravity := false, fluid := false }

/-- `BLOCK.WOOD` (id 3). -/
def WOOD : Block := { id := 3, spawnable := true, transparent := false, selflit := false, gravity := false, fluid := false }

/-- `BLOCK.TNT` (id 4). -/
def TNT : Block := { id := 4, spawnable := true, transparent := false, selflit := false, gravity := false, fluid := false }

/-- `BLOCK.BOOKCASE` (id 5). -/
def BOOKCASE : Block := { id := 5, spawnable := true, transparent := false, selflit := false, gravity := false, fluid := false }

/-- `BLOCK.LAVA` (id 6). -/
def LAVA : Block := { id := 6, spawnable := false, transparent := true, selflit := true, gravity := true, fluid := true }

/-- `BLOCK.PLANK` (id 7). -/
def PLANK : Block := { id := 7, spawnable := true, transparent := false, selflit := false, gravity := false, fluid := false }

/-- `BLOCK.COBBLESTONE` (id 8). -/
def COBBLESTONE : Block := { id := 8, spawnable := true, transparent := false, selflit := false, gravity := false, fluid := false }

/-- `BLOCK.CONCRETE` (id 9). -/
def CONCRETE : Block := { id := 9, spawnable := true, transparent := false, selflit := false, gravity := false, fluid := false }

/-- `BLOCK.BRICK` (id 10). -/
def BRICK : Block := { id := 10, spawnable := true, transparent := false, selflit := false, gravity := false, fluid := false }

/-- `BLOCK.SAND` (id 11). -/
def SAND : Block := { id := 11, spawnable := true, transparent := false, selflit := false, gravity := true, fluid := false }

/-- `BLOCK.GRAVEL` (id 12). -/
def GRAVEL : Block := { id := 12, spawnable := true, transparent := false, selflit := false, gravity := true, fluid := false }

/-- `BLOCK.IRON` (id 13). -/
def IRON : Block := { id := 13, spawnable := true, transparent := false, selflit := false, gravity := false, fluid := false }

/-- `BLOCK.GOLD` (id 14). -/
def GOLD : Block := { id := 14, spawnable := true, transparent := false, selflit := false, gravity := false, fluid := false }

/-- `BLOCK.DIAMOND` (id 15). -/
def DIAMOND : Block := { id := 15, spawnable := true, transparent := false, selflit := false, gravity := false, fluid := false }

/-- `BLOCK.OBSIDIAN` (id 16). -/
def OBSIDIAN : Block := { id := 16, spawnable := true, transparent := false, selflit := false, gravity := false, fluid := false }

/-- `BLOCK.GLASS` (id 17). -/
def GLASS : Block := { id := 17, spawnable := true, transparent := true, selflit := false, gravity := false, fluid := false }

/-- `BLOCK.SPONGE` (id 18). -/
def SPONGE : Block := { id := 18, spawnable := true, transparent := false, selflit := false, gravity := false, fluid := false }

/-- `BLOCK.WATER` (id 19). -/
def WATER : Block := { id := 19, spawnable := false, transparent := true, selflit := false, gravity := true, fluid := true }

/-- `BLOCK.LEAVES` (id 20). -/
def LEAVES : Block := { id := 20, spawnable := true, transparent := true, selflit := false, gravity := false, fluid := false }

/-- `BLOCK.ROCK` (id 21). -/
def ROCK : Block := { id := 21, spawnable := true, transparent := false, selflit := false, gravity := false, fluid := false }

/-- The block templates stored on the `BLOCK` object, in property insertion
order (the order `BLOCK.fromId` scans them in; the function-valued properties
are skipped by its `typeof this[type] === 'object'` test). -/
def blockTypes : List Block :=
  [BEDROCK, DIRT, WOOD, TNT, BOOKCASE, LAVA, PLANK, COBBLESTONE, CONCRETE,
   BRICK, SAND, GRAVEL, IRON, GOLD, DIAMOND, OBSIDIAN, GLASS, SPONGE,
   WATER, LEAVES, ROCK, AIR]

/-- `BLOCK.validateBlockType(null)` returns the hard-coded `defaultBlock`,
whose flags equal `AIR`; on a block object it merges the object over the
defaults, which on the closed record `Block` is the identity. -/
def validateBlockType : Option Block → Block
  | none => AIR
  | some b => b

/-- `BLOCK.fromId(id)` (`blocks.js`): a negative (or undefined) id yields the
default block, otherwise the templates are scanned for a matching id, falling
back to the default block when none matches. -/
def fromId (id : Int) : Block :=
  if id < 0 then validateBlockType none
  else
    match blockTypes.find? (fun t => (t.id : Int) = id) with
    | some t => validateBlockType (some t)
    | none => validateBlockType none

end BLOCK

/-- The dense block storage `world.blocks`, a JS array of arrays of arrays
indexed `[x][y][z]`. -/
abbrev Blocks := List (List (List Block))

/-- Read `blocks[x][y][z]`.  All modelled reads are in range; the default is
never produced by an in-range read. -/
def bget (bs : Blocks) (x y z : Nat) : Block :=
  ((bs.getD x []).getD y []).getD z BLOCK.AIR

/-- Write `blocks[x][y][z] = b` (in-range write on the nested arrays). -/
def bset (bs : Blocks) (x y z : Nat) (b : Block) : Blocks :=
  bs.modify (fun plane => plane.modify (fun col => col.set z b) y) x

/-- The `World` container (`network.js`).  The `players` map and the back
reference to the renderer are owned externally and are not part of the grid
state; the renderer is threaded separately (see `setBlock`). -/
structure World where
  sx : Nat
  sy : Nat
  sz : Nat
  blocks : Blocks
  lightmap : List (List Nat)
  spawnPoint : ℚ × ℚ × ℚ
deriving DecidableEq, Repr

/-- `World.isInBounds(x, y, z)` (`network.js`). -/
def isInBounds (w : World) (x y z : Int) : Bool :=
  0 ≤ x && x < (w.sx : Int) && 0 ≤ y && y < (w.sy : Int) && 0 ≤ z && z < (w.sz : Int)

/-- `World.validateBlock(block)` (`network.js`): null or id-less input falls back
to `BLOCK.AIR`; id 0 is normalised to the `AIR` template; `rentgenView` / `xray`
blocks are made transparent; everything else goes through
`BLOCK.validateBlockType` (the identity on the closed record). -/
def validateBlock : Option Block → Block
  | none => BLOCK.AIR
  | some b =>
    if b.id = BLOCK.AIR.id then BLOCK.AIR
    else if b.rentgenView then { b with transparent := true }
    else if b.xray then { b with transparent := true }
    else BLOCK.validateBlockType (some b)

/-- `World.getBlock(x, y, z)` (`network.js`): `null` (here `none`) out of
bounds, otherwise the validated cell content. -/
def getBlock (w : World) (x y z : Int) : Option Block :=
  if x < 0 || y < 0 || z < 0 || (w.sx : Int) ≤ x || (w.sy : Int) ≤ y || (w.sz : Int) ≤ z then none
  else some (validateBlock (some (bget w.blocks x.toNat y.toNat z.toNat)))

/-- The per-column scan of `World.updateLighting` (`network.js`): `maxZ` starts
at `sz - 1` and is set to the first non-transparent cell found scanning down. -/
def columnLight (bs : Blocks) (sz : Nat) (x y : Nat) : Nat :=
  match ((List.range sz).reverse.find? (fun z => !(bget bs x y z).transparent)) with
  | some z => z
  | none => sz - 1

/-- `World.updateLighting()` (`network.js`): recompute the whole lightmap. -/
def updateLighting (w : World) : World :=
  { w with lightmap :=
      (List.range w.sx).map (fun x => (List.range w.sy).map (fun y => columnLight w.blocks w.sz x y)) }

/-- A chunk record as built by `Renderer.createChunk` / `Renderer.setWorld`
(`render.js`): clipped AABB, dirty flag and mesh buffer.  The WebGL buffer is
modelled by its vertex count (`buffer.vertices`). -/
structure Chunk where
  startc : Int × Int × Int
  endc : Int × Int × Int
  dirty : Bool
  buffer : Option Nat
deriving DecidableEq, Repr

/-- An entry of `Renderer.chunkLoadQueue` (`render.js`): block coordinates of
the chunk origin plus its streaming priority. -/
structure QEntry where
  x : Int
  y : Int
  z : Int
  priority : ℚ
deriving DecidableEq, Repr

/-- The renderer state used by the modelled operations (`render.js`).
`chunkMap` keys are the `"cx,cy,cz"` strings of `getChunkKey`, modelled by the
integer triple they print (the printing is injective on triples). -/
structure Renderer where
  chunkMap : List ((Int × Int × Int) × Chunk)
  chunkLoadQueue : List QEntry
  eventQueue : List (Int × Int × Int)
  chunkSize : Nat
  loadDistance : Nat
  unloadDistance : Nat
  maxChunksPerFrame : Nat
deriving DecidableEq, Repr

/-- `Renderer.onBlockChanged(x, y, z)` (`render.js`): push a `blockChanged`
event; nothing else is touched. -/
def onBlockChanged (r : Renderer) (x y z : Int) : Renderer :=
  { r with eventQueue := r.eventQueue ++ [(x, y, z)] }

/-- `World.setBlock(x, y, z, type)` (`network.js`) acting on the world and the
attached renderer (`this.renderer`).  Out of bounds it returns `false` without
touching anything; a `null` block reaches `type.xray` and raises a
`TypeError`; otherwise the (validated, or xray-adjusted) block is written to
the single cell and, when a renderer is attached and the block is not xray,
`renderer.onBlockChanged` is notified.  The stored `{...block, metadata}`
object is modelled by the block itself (metadata is never read back by any
modelled operation). -/
def setBlock (w : World) (r : Option Renderer) (x y z : Int) (type : Option Block) :
    Except String (Bool × World × Option Renderer) :=
  if !isInBounds w x y z then .ok (false, w, r)
  else
    match type with
    | none => .error "TypeError: Cannot read properties of null (reading xray)"
    | some t =>
      let block := if t.xray then { t with transparent := true } else validateBlock (some t)
      let w2 := { w with blocks := bset w.blocks x.toNat y.toNat z.toNat block }
      let r2 := match r with
        | some rr => if !t.xray then some (onBlockChanged rr x y z) else some rr
        | none => none
      .ok (true, w2, r2)

/-- The world component of a `setBlock` call (the error case cannot occur for
`some` input and leaves the world unchanged for uniformity). -/
def setBlockWorld (w : World) (r : Option Renderer) (x y z : Int) (type : Option Block) : World :=
  match setBlock w r x y z type with
  | .ok (_, w2, _) => w2
  | .error _ => w

/-- The renderer component of a `setBlock` call. -/
def setBlockRenderer (w : World) (r : Option Renderer) (x y z : Int) (type : Option Block) :
    Option Renderer :=
  match setBlock w r x y z type with
  | .ok (_, _, r2) => r2
  | .error _ => r

/-- The cells of the world in serialization order: x outer, then y, then z
(the loop order of `World.toNetworkString`). -/
def cellsInOrder (w : World) : List Block :=
  (List.range w.sx).flatMap (fun x =>
    (List.range w.sy).flatMap (fun y =>
      (List.range w.sz).map (fun z => bget w.blocks x y z)))

/-- `World.toNetworkString()` (`network.js`): one character per cell,
`String.fromCharCode(97 + validateBlock(cell).id)`, x outer, then y, then z. -/
def toNetworkString (w : World) : String :=
  String.mk ((cellsInOrder w).map (fun b => Char.ofNat (97 + (validateBlock (some b)).id)))

/-- `str.charCodeAt(i)` for an in-range index. -/
def charCodeAt (s : String) (i : Nat) : Int :=
  ((s.data.getD i ' ').toNat : Int)

/-- `World.createFromString(str)` (`network.js`): throws on a length mismatch,
otherwise overwrites every cell with `BLOCK.fromId(str.charCodeAt(i) - 97)`
where the running index `i` equals `x*sy*sz + y*sz + z` (x outer, then y,
then z). -/
def createFromString (w : World) (s : String) : Except String World :=
  if s.length ≠ w.sx * w.sy * w.sz then .error "String length does not match world dimensions."
  else .ok { w with blocks :=
    (List.range w.sx).map (fun x =>
      (List.range w.sy).map (fun y =>
        (List.range w.sz).map (fun z =>
          BLOCK.fromId (charCodeAt s (x * (w.sy * w.sz) + y * w.sz + z) - 97)))) }

/-- The face tests of `BLOCK.pushVertices` (`blocks.js`), for an in-bounds cell.
Each face is tested independently; the quad payload (positions, texture
rectangle, light scalar) does not influence whether the quad is pushed and is
abstracted away, so the function returns the list of emitted faces in source
order (top, bottom, front, back, left, right).  Each emitted quad contributes
6 vertices to the vertex array.  The `!blocks?.[x]?.[y]?.[z]` and air early
returns of the source are the `id = AIR` test below (modelled cells are always
present). -/
def pushVertices (w : World) (x y z : Nat) : List Direction :=
  let block := bget w.blocks x y z
  if block.id = BLOCK.AIR.id then []
  else
    (if z = w.sz - 1 || (bget w.blocks x y (z + 1)).transparent || block.fluid then [Direction.UP] else []) ++
    (if z = 0 || (bget w.blocks x y (z - 1)).transparent then [Direction.DOWN] else []) ++
    (if y = 0 || (bget w.blocks x (y - 1) z).transparent then [Direction.FORWARD] else []) ++
    (if y = w.sy - 1 || (bget w.blocks x (y + 1) z).transparent then [Direction.BACK] else []) ++
    (if x = 0 || (bget w.blocks (x - 1) y z).transparent then [Direction.LEFT] else []) ++
    (if x = w.sx - 1 || (bget w.blocks (x + 1) y z).transparent then [Direction.RIGHT] else [])

/-- Modelled from the spec: a face of a non-air cell is visible when the
neighbor on that side is transparent, the face lies on the world edge, or —
the fluid exemption of the top face — the cell itself is a fluid. -/
def specFaceVisible (w : World) (x y z : Nat) (dir : Direction) : Bool :=
  let block := bget w.blocks x y z
  match dir with
  | Direction.UP => z = w.sz - 1 || (bget w.blocks x y (z + 1)).transparent || block.fluid
  | Direction.DOWN => z = 0 || (bget w.blocks x y (z - 1)).transparent
  | Direction.FORWARD => y = 0 || (bget w.blocks x (y - 1) z).transparent
  | Direction.BACK => y = w.sy - 1 || (bget w.blocks x (y + 1) z).transparent
  | Direction.LEFT => x = 0 || (bget w.blocks (x - 1) y z).transparent
  | Direction.RIGHT => x = w.sx - 1 || (bget w.blocks (x + 1) y z).transparent

/-- Modelled from the spec (claim wording, without the fluid exemption): a
face is visible iff the neighbor on that side is transparent, with the world
edge treated as transparent. -/
def specFaceVisibleClaimed (w : World) (x y z : Nat) (dir : Direction) : Bool :=
  match dir with
  | Direction.UP => z = w.sz - 1 || (bget w.blocks x y (z + 1)).transparent
  | Direction.DOWN => z = 0 || (bget w.blocks x y (z - 1)).transparent
  | Direction.FORWARD => y = 0 || (bget w.blocks x (y - 1) z).transparent
  | Direction.BACK => y = w.sy - 1 || (bget w.blocks x (y + 1) z).transparent
  | Direction.LEFT => x = 0 || (bget w.blocks (x - 1) y z).transparent
  | Direction.RIGHT => x = w.sx - 1 || (bget w.blocks (x + 1) y z).transparent

/-- The vertex-collection loop of `Renderer.buildChunk` (`render.js`), counted
in emitted quads: every non-air cell of the chunk AABB contributes its
`pushVertices` quads. -/
def buildChunkFaces (w : World) (c : Chunk) : Nat :=
  ((List.range (c.endc.1 - c.startc.1).toNat).flatMap (fun dx =>
    (List.range (c.endc.2.1 - c.startc.2.1).toNat).flatMap (fun dy =>
      (List.range (c.endc.2.2 - c.startc.2.2).toNat).map (fun dz =>
        let x := (c.startc.1 + dx).toNat
        let y := (c.startc.2.1 + dy).toNat
        let z := (c.startc.2.2 + dz).toNat
        if (bget w.blocks x y z).id ≠ BLOCK.AIR.id then (pushVertices w x y z).length
        else 0)))).sum

/-- A 4×4 matrix over the exact rationals (a `mat4`; gl-matrix stores it
column-major, the model indexes row, column). -/
def Mat4 := Fin 4 → Fin 4 → ℚ

/-- Matrix product (`mat4.multiply`). -/
def matMul (a b : Mat4) : Mat4 :=
  fun i j => a i 0 * b 0 j + a i 1 * b 1 j + a i 2 * b 2 j + a i 3 * b 3 j

/-- `mat4.perspectiveNO(out, fovy, aspect, near, far)` with
`tanf = 1 / Math.tan(fovy / 2)` supplied as an already-computed parameter
(it is the only place the field of view enters the matrix). -/
def perspectiveNO (tanf aspect near far : ℚ) : Mat4 :=
  fun i j =>
    if i = 0 ∧ j = 0 then tanf / aspect
    else if i = 1 ∧ j = 1 then tanf
    else if i = 2 ∧ j = 2 then (far + near) / (near - far)
    else if i = 2 ∧ j = 3 then 2 * far * near / (near - far)
    else if i = 3 ∧ j = 2 then -1
    else 0

/-- Rotation about the x axis by an angle whose cosine and sine are `c`, `s`
(`mat4.rotateX`). -/
def rotX (c s : ℚ) : Mat4 :=
  fun i j =>
    if i = 0 ∧ j = 0 then 1
    else if i = 1 ∧ j = 1 then c
    else if i = 1 ∧ j = 2 then -s
    else if i = 2 ∧ j = 1 then s
    else if i = 2 ∧ j = 2 then c
    else if i = 3 ∧ j = 3 then 1
    else 0

/-- Rotation about the y axis (`mat4.rotateY`). -/
def rotY (c s : ℚ) : Mat4 :=
  fun i j =>
    if i = 0 ∧ j = 0 then c
    else if i = 0 ∧ j = 2 then s
    else if i = 1 ∧ j = 1 then 1
    else if i = 2 ∧ j = 0 then -s
    else if i = 2 ∧ j = 2 then c
    else if i = 3 ∧ j = 3 then 1
    else 0

/-- Rotation about the z axis (`mat4.rotateZ`). -/
def rotZ (c s : ℚ) : Mat4 :=
  fun i j =>
    if i = 0 ∧ j = 0 then c
    else if i = 0 ∧ j = 1 then -s
    else if i = 1 ∧ j = 0 then s
    else if i = 1 ∧ j = 1 then c
    else if i = 2 ∧ j = 2 then 1
    else if i = 3 ∧ j = 3 then 1
    else 0

/-- Translation matrix (`mat4.translate` applied to the identity chain). -/
def translateM (v : ℚ × ℚ × ℚ) : Mat4 :=
  fun i j =>
    if i = 0 ∧ j = 0 then 1
    else if i = 1 ∧ j = 1 then 1
    else if i = 2 ∧ j = 2 then 1
    else if i = 3 ∧ j = 3 then 1
    else if i = 0 ∧ j = 3 then v.1
    else if i = 1 ∧ j = 3 then v.2.1
    else if i = 2 ∧ j = 3 then v.2.2
    else 0

/-- `Renderer.setCamera(pos, ang)` (`render.js`): starting from the identity it
post-multiplies `rotateX(-ang[0] - π/2)`, `rotateZ(ang[1])`, `rotateY(-ang[2])`
and `translate(-pos)`.  The cosine/sine of the three rotation angles are
supplied as already-computed parameters `(cx, sx)`, `(cz, sz)`, `(cy, sy)`. -/
def viewMatrix (cx sx cz sz cy sy : ℚ) (pos : ℚ × ℚ × ℚ) : Mat4 :=
  matMul (matMul (matMul (rotX cx sx) (rotZ cz sz)) (rotY cy sy))
    (translateM (-pos.1, -pos.2.1, -pos.2.2))

/-- A clip plane `(a, b, c, d)` as held in `Renderer.frustumPlanes`. -/
abbrev Plane := ℚ × ℚ × ℚ × ℚ

/-- Plane-point product `vec4.dot(plane, (x, y, z, 1))`. -/
def planeDot (p : Plane) (v : ℚ × ℚ × ℚ) : ℚ :=
  p.1 * v.1 + p.2.1 * v.2.1 + p.2.2.1 * v.2.2 + p.2.2.2

/-- `Renderer.updateFrustumPlanes` (`render.js`): the six Gribb–Hartmann
row-sum/difference planes of `proj × view`.  The final `vec4.normalize` step
scales each plane by a nonnegative factor (`1/‖p‖`, or leaves a zero plane
unchanged), which does not change the sign of any `planeDot`; the model keeps
the unnormalized planes (see `isChunkInFrustum_scale_invariant`). -/
def updateFrustumPlanes (proj view : Mat4) : Fin 6 → Plane :=
  let m := matMul proj view
  fun i =>
    match i with
    | 0 => (m 3 0 + m 0 0, m 3 1 + m 0 1, m 3 2 + m 0 2, m 3 3 + m 0 3)
    | 1 => (m 3 0 - m 0 0, m 3 1 - m 0 1, m 3 2 - m 0 2, m 3 3 - m 0 3)
    | 2 => (m 3 0 + m 1 0, m 3 1 + m 1 1, m 3 2 + m 1 2, m 3 3 + m 1 3)
    | 3 => (m 3 0 - m 1 0, m 3 1 - m 1 1, m 3 2 - m 1 2, m 3 3 - m 1 3)
    | 4 => (m 3 0 + m 2 0, m 3 1 + m 2 1, m 3 2 + m 2 2, m 3 3 + m 2 3)
    | 5 => (m 3 0 - m 2 0, m 3 1 - m 2 1, m 3 2 - m 2 2, m 3 3 - m 2 3)

/-- The 8 corners of a chunk AABB, in the order `Renderer.isChunkInFrustum`
tests them. -/
def chunkCorners (c : Chunk) : List (ℚ × ℚ × ℚ) :=
  let s := c.startc
  let e := c.endc
  [((s.1 : ℚ), (s.2.1 : ℚ), (s.2.2 : ℚ)),
   ((e.1 : ℚ), (s.2.1 : ℚ), (s.2.2 : ℚ)),
   ((s.1 : ℚ), (e.2.1 : ℚ), (s.2.2 : ℚ)),
   ((e.1 : ℚ), (e.2.1 : ℚ), (s.2.2 : ℚ)),
   ((s.1 : ℚ), (s.2.1 : ℚ), (e.2.2 : ℚ)),
   ((e.1 : ℚ), (s.2.1 : ℚ), (e.2.2 : ℚ)),
   ((s.1 : ℚ), (e.2.1 : ℚ), (e.2.2 : ℚ)),
   ((e.1 : ℚ), (e.2.1 : ℚ), (e.2.2 : ℚ))]

/-- `Renderer.isChunkInFrustum(chunk)` (`render.js`): the chunk is culled iff
some plane has all 8 corners strictly on its negative side. -/
def isChunkInFrustum (planes : Fin 6 → Plane) (c : Chunk) : Bool :=
  (List.finRange 6).all (fun i =>
    ! (chunkCorners c).all (fun v => planeDot (planes i) v < 0))

/-- `Math.floor` on an exact rational. -/
def jsFloor (q : ℚ) : Int := q.num.fdiv q.den

/-- `Renderer.getChunkKey(x, y, z)` (`render.js`) on block coordinates:
`Math.floor` division by the chunk size (the `"cx,cy,cz"` string is modelled
by the triple it prints). -/
def getChunkKey (cs : Nat) (x y z : Int) : Int × Int × Int :=
  (x.fdiv cs, y.fdiv cs, z.fdiv cs)

/-- `Map.set` on the insertion-ordered association list modelling a JS `Map`:
replace in place if the key is present, else append. -/
def mapSet (m : List ((Int × Int × Int) × Chunk)) (k : Int × Int × Int) (v : Chunk) :
    List ((Int × Int × Int) × Chunk) :=
  if (m.lookup k).isSome then m.map (fun p => if p.1 = k then (k, v) else p)
  else m ++ [(k, v)]

/-- The view vector computed at the top of `Renderer.updateChunksAroundPlayer`
(`render.js`).  Note the source reads `this.camPos[0]` and `this.camPos[1]` —
components of the camera *position* — where pitch and yaw are intended; the
cosine and sine are supplied as function parameters `cosF`, `sinF` standing
for `Math.cos`, `Math.sin`. -/
def viewVectorCode (cosF sinF : ℚ → ℚ) (camPos : ℚ × ℚ × ℚ) : ℚ × ℚ × ℚ :=
  (cosF camPos.2.1 * cosF camPos.1, sinF camPos.2.1 * cosF camPos.1, sinF camPos.1)

/-- Modelled from the spec: "Compute camera forward vector from pitch/yaw" —
the same formula shape applied to the camera's actual pitch and yaw. -/
def specViewVector (cosF sinF : ℚ → ℚ) (pitch yaw : ℚ) : ℚ × ℚ × ℚ :=
  (cosF yaw * cosF pitch, sinF yaw * cosF pitch, sinF pitch)

/-- The priority assigned to a queued chunk at offset `(dx, dy, dz)` from the
camera chunk: `distance - (viewAlignment > 0 ? 2 : 0)`, with `Math.sqrt`
modelled by the parameter `sqrtF`. -/
def chunkPriority (sqrtF : ℚ → ℚ) (vv : ℚ × ℚ × ℚ) (dx dy dz : Int) : ℚ :=
  let va : ℚ := (dx : ℚ) * vv.1 + (dy : ℚ) * vv.2.1 + (dz : ℚ) * vv.2.2
  sqrtF ((dx * dx + dy * dy + dz * dz : Int) : ℚ) - (if 0 < va then 2 else 0)

/-- The signed integer interval `[p - d, p + d]` scanned by each of the three
nested loops of `Renderer.updateChunksAroundPlayer`. -/
def coordRange (p : Int) (d : Nat) : List Int :=
  (List.range (2 * d + 1)).map (fun i : Nat => p - d + i)

/-- The queue-building loop of `Renderer.updateChunksAroundPlayer`
(`render.js`): every chunk coordinate in the ±loadDistance cube whose origin is
in bounds, whose Euclidean distance is within `loadDistance` (the
`Math.sqrt(d²) <= loadDistance` test, modelled on squares) and which is not in
`chunkMap` is pushed with its block-coordinate origin and priority. -/
def buildLoadQueue (w : World) (r : Renderer) (px py pz : Int) (vv : ℚ × ℚ × ℚ)
    (sqrtF : ℚ → ℚ) : List QEntry :=
  (coordRange px r.loadDistance).flatMap (fun x =>
    (coordRange py r.loadDistance).flatMap (fun y =>
      (coordRange pz r.loadDistance).filterMap (fun z =>
        if !isInBounds w (x * r.chunkSize) (y * r.chunkSize) (z * r.chunkSize) then none
        else
          let dx := x - px
          let dy := y - py
          let dz := z - pz
          if dx * dx + dy * dy + dz * dz ≤ (r.loadDistance : Int) * r.loadDistance then
            if (r.chunkMap.lookup (getChunkKey r.chunkSize (x * r.chunkSize) (y * r.chunkSize) (z * r.chunkSize))).isSome then none
            else some ⟨x * r.chunkSize, y * r.chunkSize, z * r.chunkSize,
                       chunkPriority sqrtF vv dx dy dz⟩
          else none)))

/-- `this.chunkLoadQueue.sort((a, b) => a.priority - b.priority)`: ascending
stable sort by priority. -/
def sortQueue (q : List QEntry) : List QEntry :=
  q.mergeSort (fun a b => a.priority ≤ b.priority)

/-- The eviction loop of `Renderer.updateChunksAroundPlayer` (`render.js`):
every map entry whose key is farther than `unloadDistance` from the camera
chunk (the `Math.sqrt(d²) > unloadDistance` test, modelled on squares) has its
buffer deleted and is removed from the map. -/
def evictFar (r : Renderer) (px py pz : Int) : List ((Int × Int × Int) × Chunk) :=
  r.chunkMap.filter (fun p =>
    let dx := p.1.1 - px
    let dy := p.1.2.1 - py
    let dz := p.1.2.2 - pz
    dx * dx + dy * dy + dz * dz ≤ (r.unloadDistance : Int) * r.unloadDistance)

/-- `Renderer.createChunk(x, y, z)` (`render.js`): the chunk record with its
AABB clipped to the world, stored under its key and built immediately
(`buildChunk` resets `dirty` and allocates a buffer only when vertices were
produced; the buffer is modelled by its vertex count). -/
def createChunk (w : World) (cs : Nat) (m : List ((Int × Int × Int) × Chunk)) (x y z : Int) :
    List ((Int × Int × Int) × Chunk) :=
  let c0 : Chunk :=
    { startc := (x, y, z),
      endc := (min (x + cs) (w.sx : Int), min (y + cs) (w.sy : Int), min (z + cs) (w.sz : Int)),
      dirty := true, buffer := none }
  let faces := buildChunkFaces w c0
  let c1 : Chunk := { c0 with dirty := false, buffer := if faces > 0 then some (faces * 6) else none }
  mapSet m (getChunkKey cs x y z) c1

/-- `Renderer.processChunkQueue` (`render.js`): dequeue and materialize up to
`maxChunksPerFrame` entries. -/
def processChunkQueue (w : World) (cs : Nat) (m : List ((Int × Int × Int) × Chunk))
    (q : List QEntry) (maxC : Nat) : List ((Int × Int × Int) × Chunk) :=
  (q.take maxC).foldl (fun acc e => createChunk w cs acc e.x e.y e.z) m

/-- `Renderer.updateChunksAroundPlayer(playerPos)` (`render.js`): one streaming
pass — camera chunk coordinate by floor division, view vector from `camPos`,
queue building, ascending sort, eviction of distant chunks, and processing of
up to `maxChunksPerFrame` queued chunks (the unprocessed remainder persists in
`chunkLoadQueue`). -/
def updateChunksAroundPlayer (w : World) (r : Renderer) (playerPos camPos : ℚ × ℚ × ℚ)
    (cosF sinF sqrtF : ℚ → ℚ) : Renderer :=
  let px := jsFloor (playerPos.1 / r.chunkSize)
  let py := jsFloor (playerPos.2.1 / r.chunkSize)
  let pz := jsFloor (playerPos.2.2 / r.chunkSize)
  let vv := viewVectorCode cosF sinF camPos
  let q := sortQueue (buildLoadQueue w r px py pz vv sqrtF)
  let m := evictFar r px py pz
  { r with chunkMap := processChunkQueue w r.chunkSize m q r.maxChunksPerFrame,
           chunkLoadQueue := q.drop r.maxChunksPerFrame }

/-- Bounds test against raw dimensions (the body of `World.isInBounds`; the
constructor assigns `this.sx/sy/sz` before any of the generation code runs). -/
def dimsInBounds (sx sy sz : Nat) (x y z : Int) : Bool :=
  0 ≤ x && x < (sx : Int) && 0 ≤ y && y < (sy : Int) && 0 ≤ z && z < (sz : Int)

/-- Guarded cell write on `Int` coordinates.  Writes at a negative index or at
`z ≥ sz` (which occur only for spawn-platform rows near the top or bottom of
a short world) create JS array properties outside the slots `0 ≤ z < sz` that
no modelled read ever visits, so they are modelled as no-ops. -/
def bsetI (bs : Blocks) (x y z : Int) (b : Block) : Blocks :=
  if 0 ≤ x && 0 ≤ y && 0 ≤ z then bset bs x.toNat y.toNat z.toNat b else bs

/-- The signed interval `[lo, hi]`, as scanned by `for (i = lo; i <= hi; i++)`. -/
def intRange (lo hi : Int) : List Int :=
  (List.range (hi - lo + 1).toNat).map (fun i => lo + i)

/-- Generation state: the block array under construction plus the cursor into
the `Math.random()` stream. -/
structure GenSt where
  blocks : Blocks
  ridx : Nat
deriving Repr, DecidableEq

/-- One `Math.random()` call. -/
def randNext (rand : Nat → ℚ) (g : GenSt) : ℚ × GenSt :=
  (rand g.ridx, { g with ridx := g.ridx + 1 })

/-- `World.addTree(blocks, x, y, z)` (`network.js`): two early bounds checks
(before any `Math.random()` call), a trunk of `5 + Math.floor(Math.random()*3)`
`WOOD` blocks, then four leaf layers of radius 1, 2, 2, 1 where
`Math.sqrt(lx²+ly²) <= radius + 0.5` (modelled on squares) selects a disc, and
`LEAVES` replaces in-bounds `AIR` cells only. -/
def addTree (sx sy sz : Nat) (rand : Nat → ℚ) (g : GenSt) (x y z : Int) : GenSt :=
  if !dimsInBounds sx sy sz (x + 2) (y + 2) (z + 6) then g
  else if !dimsInBounds sx sy sz (x - 2) (y - 2) z then g
  else
    let rg := randNext rand g
    let height : Int := 5 + jsFloor (rg.1 * 3)
    let g1 := (List.range height.toNat).foldl (fun (g2 : GenSt) (i : Nat) =>
      { g2 with blocks := bsetI g2.blocks x y (z + i) (validateBlock (some BLOCK.WOOD)) }) rg.2
    let leafStart := z + height - 3
    (List.range 4).foldl (fun (g2 : GenSt) (lz : Nat) =>
      let radius : Int := if lz = 0 ∨ lz = 3 then 1 else 2
      (intRange (-radius) radius).foldl (fun (g3 : GenSt) (lx : Int) =>
        (intRange (-radius) radius).foldl (fun (g4 : GenSt) (ly : Int) =>
          if ((lx * lx + ly * ly : Int) : ℚ) ≤ ((radius : ℚ) + 1/2) ^ 2 then
            let nx := x + lx
            let ny := y + ly
            let nz := leafStart + lz
            if dimsInBounds sx sy sz nx ny nz &&
               (bget g4.blocks nx.toNat ny.toNat nz.toNat).id = BLOCK.AIR.id then
              { g4 with blocks := bsetI g4.blocks nx ny nz (validateBlock (some BLOCK.LEAVES)) }
            else g4
          else g4) g3) g2) g1

/-- `World.createCavity(blocks, x, y, z, …)` (`network.js`): for every
neighbour in the ±1 cube (x outer, then y, then z) that is in bounds and
neither air nor water, consume one `Math.random()` and clear the cell when it
is below 0.3. -/
def createCavity (sx sy sz : Nat) (rand : Nat → ℚ) (g : GenSt) (x y z : Int) : GenSt :=
  (intRange (-1) 1).foldl (fun (g1 : GenSt) (dx : Int) =>
    (intRange (-1) 1).foldl (fun (g2 : GenSt) (dy : Int) =>
      (intRange (-1) 1).foldl (fun (g3 : GenSt) (dz : Int) =>
        let nx := x + dx
        let ny := y + dy
        let nz := z + dz
        if dimsInBounds sx sy sz nx ny nz &&
           (bget g3.blocks nx.toNat ny.toNat nz.toNat).id ≠ BLOCK.AIR.id &&
           (bget g3.blocks nx.toNat ny.toNat nz.toNat).id ≠ BLOCK.WATER.id then
          let rg := randNext rand g3
          if rg.1 < 3/10 then
            { rg.2 with blocks := bsetI rg.2.blocks nx ny nz (validateBlock (some BLOCK.AIR)) }
          else rg.2
        else g3) g2) g1) g

/-- `World.generateCaves(blocks, sx, sy, sz)` (`network.js`): for every solid
cell in the height band `[5, sz - 10)`, combine two Perlin samples
(`scale 0.05` primary, `scale 0.1` offset-100 detail halved, amplitude 0.7) and
clear the cell when the combination exceeds the height-weighted threshold
`0.3 + heightInfluence * 0.5`; exceeding by a further 0.1 also carves a small
random cavity.  Constant literals are written as exact fractions. -/
def generateCaves (sx sy sz : Nat) (perlin : ℚ → ℚ → ℚ → ℚ) (rand : Nat → ℚ) (g : GenSt) : GenSt :=
  let minH : Int := 5
  let maxH : Int := (sz : Int) - 10
  let heightFactor : ℚ := 1 / ((maxH - minH : Int) : ℚ)
  (List.range sx).foldl (fun (g1 : GenSt) (x : Nat) =>
    (List.range sy).foldl (fun (g2 : GenSt) (y : Nat) =>
      (intRange minH (maxH - 1)).foldl (fun (g3 : GenSt) (z : Int) =>
        let b := bget g3.blocks x y z.toNat
        if b.id = BLOCK.AIR.id ∨ b.id = BLOCK.WATER.id then g3
        else
          let heightInfluence : ℚ := ((z - minH : Int) : ℚ) * heightFactor
          let localThreshold : ℚ := 3/10 + heightInfluence * (1/2)
          let primaryNoise := perlin ((x : ℚ) * (1/20)) ((y : ℚ) * (1/20)) ((z : ℚ) * (1/20))
          let detailNoise := perlin ((x : ℚ) * (1/10) + 100) ((y : ℚ) * (1/10) + 100) ((z : ℚ) * (1/10) + 100) * (1/2)
          let combinedNoise := (primaryNoise + detailNoise) * (7/10)
          if combinedNoise > localThreshold then
            let g4 := { g3 with blocks := bsetI g3.blocks x y z (validateBlock (some BLOCK.AIR)) }
            if combinedNoise > localThreshold + 1/10 then createCavity sx sy sz rand g4 x y z
            else g4
          else g3) g2) g1) g

/-- The multi-octave surface height of one column (`World.generateTerrain`,
`network.js`): 4 octaves of `noise3D(x·freq/24, y·freq/24, 0)` with persistence
0.5, normalised to `[0, 1]` and scaled by `heightScale·0.3` over the base
height `⌊sz·0.5⌋`. -/
def columnHeight (sz : Nat) (noise : ℚ → ℚ → ℚ → ℚ) (x y : Nat) : Int :=
  let biomeScale : ℚ := 24
  let heightScale : ℚ := (sz : ℚ) / 2
  let baseHeight : Int := jsFloor ((sz : ℚ) * (1/2))
  -- state: (heightValue, amp, freq, totalAmp)
  let st := (List.range 4).foldl
    (fun (s : ℚ × ℚ × ℚ × ℚ) (_o : Nat) =>
      (s.1 + s.2.1 * noise ((x : ℚ) * s.2.2.1 / biomeScale) ((y : ℚ) * s.2.2.1 / biomeScale) 0,
       s.2.1 * (1/2), s.2.2.1 * 2, s.2.2.2 + s.2.1))
    ((0 : ℚ), (1 : ℚ), (1 : ℚ), (0 : ℚ))
  let heightValue : ℚ := (st.1 / st.2.2.2 + 1) * (1/2)
  jsFloor ((baseHeight : ℚ) + heightValue * heightScale * (3/10))

/-- The per-column fill of `World.generateTerrain`: bedrock at `z = 0`, rock
below `finalHeight - 4`, dirt up to `finalHeight`, water up to the water
level, air above. -/
def columnBlock (waterLevel finalHeight : Int) (z : Nat) : Block :=
  if z = 0 then validateBlock (some BLOCK.BEDROCK)
  else if (z : Int) < finalHeight - 4 then validateBlock (some BLOCK.ROCK)
  else if (z : Int) < finalHeight - 1 then validateBlock (some BLOCK.DIRT)
  else if (z : Int) < finalHeight then validateBlock (some BLOCK.DIRT)
  else if (z : Int) ≤ waterLevel then validateBlock (some BLOCK.WATER)
  else validateBlock (some BLOCK.AIR)

/-- `World.createFlatWorld(height)` (`network.js`): dirt below `height`, air
above. -/
def createFlatWorld (sx sy sz : Nat) (height : Nat) : Blocks :=
  (List.range sx).map (fun _ => (List.range sy).map (fun _ =>
    (List.range sz).map (fun z => if z < height then BLOCK.DIRT else BLOCK.AIR)))

/-- The initial all-air block array of `World.generateTerrain`. -/
def airGrid (sx sy sz : Nat) : Blocks :=
  (List.range sx).map (fun _ => (List.range sy).map (fun _ =>
    (List.range sz).map (fun _ => BLOCK.AIR)))

/-- The bedrock pre-pass of `World.generateTerrain`: `z = 0` of every column
becomes `BLOCK.BEDROCK`. -/
def bedrockFill (sx sy : Nat) (bs : Blocks) : Blocks :=
  (List.range sx).foldl (fun (b1 : Blocks) (x : Nat) =>
    (List.range sy).foldl (fun (b2 : Blocks) (y : Nat) =>
      bset b2 x y 0 (validateBlock (some BLOCK.BEDROCK))) b1) bs

/-- The per-column body of the main loop of `World.generateTerrain`: fill the
column bottom-up from its noise height, then above water level consume one
`Math.random()` and plant a tree when it falls below the tree chance. -/
def columnStep (sx sy sz : Nat) (noise : ℚ → ℚ → ℚ → ℚ) (rand : Nat → ℚ)
    (waterLevel : Int) (treeChance : ℚ) (g2 : GenSt) (x y : Nat) : GenSt :=
  let finalHeight := columnHeight sz noise x y
  let filled := (List.range sz).foldl (fun (bs : Blocks) (z : Nat) =>
    bset bs x y z (columnBlock waterLevel finalHeight z)) g2.blocks
  let g3 : GenSt := { g2 with blocks := filled }
  if finalHeight > waterLevel then
    let rg := randNext rand g3
    if rg.1 < treeChance then addTree sx sy sz rand rg.2 (x : Int) (y : Int) finalHeight
    else rg.2
  else g3

/-- The main column loop of `World.generateTerrain` (x outer, then y). -/
def fillColumns (sx sy sz : Nat) (noise : ℚ → ℚ → ℚ → ℚ) (rand : Nat → ℚ)
    (waterLevel : Int) (treeChance : ℚ) (g : GenSt) : GenSt :=
  (List.range sx).foldl (fun (g1 : GenSt) (x : Nat) =>
    (List.range sy).foldl (fun (g2 : GenSt) (y : Nat) =>
      columnStep sx sy sz noise rand waterLevel treeChance g2 x y) g1) g

/-- The body of the `try` block of `World.generateTerrain(sx, sy, sz)`
(`network.js`), which runs to completion exactly when the spawn-platform rows
`⌊sx/2⌋±2 × ⌊sy/2⌋±2` are in bounds: air-filled array, bedrock pre-pass,
column fill with probabilistic trees (`Math.random() < 0.0045` per column
above water), cave carving, the spawn platform, and a final re-validation of
every cell. -/
def generateTerrainFull (sx sy sz : Nat) (noise perlin : ℚ → ℚ → ℚ → ℚ) (rand : Nat → ℚ) : GenSt :=
  let waterLevel : Int := jsFloor ((sz : ℚ) * (1/2))
  let afterColumns : GenSt :=
    fillColumns sx sy sz noise rand waterLevel (9/2000)
      { blocks := bedrockFill sx sy (airGrid sx sy sz), ridx := 0 }
  let afterCaves := generateCaves sx sy sz perlin rand afterColumns
  let centerX : Nat := sx / 2
  let centerY : Nat := sy / 2
  let spawnHeight : Int := jsFloor ((sz : ℚ) * (3/5))
  let platformed : Blocks :=
    (intRange (centerX - 2) (centerX + 2)).foldl (fun (bs : Blocks) (x : Int) =>
      (intRange (centerY - 2) (centerY + 2)).foldl (fun (bs2 : Blocks) (y : Int) =>
        let bs3 := bsetI bs2 x y (spawnHeight - 1) (validateBlock (some BLOCK.DIRT))
        let bs4 := bsetI bs3 x y spawnHeight (validateBlock (some BLOCK.AIR))
        bsetI bs4 x y (spawnHeight + 1) (validateBlock (some BLOCK.AIR))) bs) afterCaves.blocks
  let afterPlatform : GenSt := { afterCaves with blocks := platformed }
  { afterPlatform with blocks :=
      (List.range sx).map (fun x => (List.range sy).map (fun y =>
        (List.range sz).map (fun z => validateBlock (some (bget afterPlatform.blocks x y z))))) }

/-- `World.generateTerrain(sx, sy, sz)` (`network.js`) including its
`try`/`catch`: when the spawn-platform rows fit, the full generation completes
and is returned; otherwise the platform loop reads an out-of-range row
(`blocks[x]` is `undefined`), the `TypeError` is caught, the partial work is
discarded and `createFlatWorld(⌊sz/2⌋)` is returned instead (the flat path
consumes no further randomness and ignores the cursor). -/
def generateTerrainJS (sx sy sz : Nat) (noise perlin : ℚ → ℚ → ℚ → ℚ) (rand : Nat → ℚ) : Blocks :=
  if 2 ≤ sx / 2 ∧ sx / 2 + 2 < sx ∧ 2 ≤ sy / 2 ∧ sy / 2 + 2 < sy then
    (generateTerrainFull sx sy sz noise perlin rand).blocks
  else createFlatWorld sx sy sz (sz / 2)

/-- `World.findSpawnPoint()` (`network.js`): the spawn column is the grid
centre; the method re-carves the 5×5 platform at `⌊sz·0.6⌋` and returns the
spawn vector.  When a platform row index falls outside `[0, sx)` (or `[0, sy)`),
reading `this.blocks[x+dx]` yields `undefined` and the subsequent indexing
raises a `TypeError` (there is no `try`/`catch` here, so it escapes the
constructor). -/
def findSpawnPoint (sx sy sz : Nat) (bs : Blocks) : Except String ((ℚ × ℚ × ℚ) × Blocks) :=
  let x : Nat := sx / 2
  let y : Nat := sy / 2
  let spawnZ : Int := jsFloor ((sz : ℚ) * (3/5))
  if 2 ≤ x ∧ x + 2 < sx ∧ 2 ≤ y ∧ y + 2 < sy then
    .ok ((((x : ℚ), (y : ℚ), (spawnZ : ℚ))),
      (intRange ((x : Int) - 2) ((x : Int) + 2)).foldl (fun (bs1 : Blocks) (px : Int) =>
        (intRange ((y : Int) - 2) ((y : Int) + 2)).foldl (fun (bs2 : Blocks) (py : Int) =>
          let bs3 := bsetI bs2 px py (spawnZ - 1) (validateBlock (some BLOCK.DIRT))
          let bs4 := bsetI bs3 px py spawnZ (validateBlock (some BLOCK.AIR))
          bsetI bs4 px py (spawnZ + 1) (validateBlock (some BLOCK.AIR))) bs1) bs)
  else .error "TypeError: Cannot read properties of undefined (reading spawn platform row)"

/-- The `World` constructor (`network.js`): dimension positivity check,
`generateTerrain`, `findSpawnPoint`, zero lightmap, `updateLighting`.  The
seeded noise functions and the `Math.random()` stream are explicit
parameters. -/
def worldNew (sxI syI szI : Int) (noise perlin : ℚ → ℚ → ℚ → ℚ) (rand : Nat → ℚ) :
    Except String World :=
  if sxI ≤ 0 ∨ syI ≤ 0 ∨ szI ≤ 0 then
    .error "World dimensions must be positive non-zero values."
  else
    let sx := sxI.toNat
    let sy := syI.toNat
    let sz := szI.toNat
    let bs := generateTerrainJS sx sy sz noise perlin rand
    match findSpawnPoint sx sy sz bs with
    | .error e => .error e
    | .ok sp =>
      .ok (updateLighting
        { sx := sx, sy := sy, sz := sz, blocks := sp.2,
          lightmap := (List.range sx).map (fun _ => (List.range sy).map (fun _ => 0)),
          spawnPoint := sp.1 })

/-- `World.generateWorld(sx, sy, sz)` (`network.js`): integer dimensions
(guaranteed by the `Int` argument type here), positivity and the ≤ 254 cap are
checked before construction; any error is re-wrapped with the
"Failed to generate world" prefix. -/
def generateWorld (sxI syI szI : Int) (noise perlin : ℚ → ℚ → ℚ → ℚ) (rand : Nat → ℚ) :
    Except String World :=
  if sxI ≤ 0 ∨ syI ≤ 0 ∨ szI ≤ 0 then
    .error "Failed to generate world: World dimensions must be positive"
  else if 254 < sxI ∨ 254 < syI ∨ 254 < szI then
    .error "Failed to generate world: World dimensions cannot exceed 254"
  else
    match worldNew sxI syI szI noise perlin rand with
    | .ok w => .ok w
    | .error e => .error ("Failed to generate world: " ++ e)


-- ### Concrete fixtures used by witnesses and counterexamples

/-- Shape invariant: the nested block array has exactly the world's dimensions. -/
def wellFormed (w : World) : Bool :=
  w.blocks.length = w.sx &&
  w.blocks.all (fun plane => (plane.length = w.sy : Bool) && plane.all (fun col => col.length = w.sz))

/-- A 3×3×3 all-air test world whose lightmap matches `updateLighting` (an
all-transparent column leaves `maxZ` at `sz - 1 = 2`). -/
def testWorld : World :=
  { sx := 3, sy := 3, sz := 3,
    blocks := (List.range 3).map (fun _ => (List.range 3).map (fun _ =>
      (List.range 3).map (fun _ => BLOCK.AIR))),
    lightmap := [[2, 2, 2], [2, 2, 2], [2, 2, 2]],
    spawnPoint := (1, 1, 1) }

/-- A renderer attached to `testWorld` with one clean chunk covering the grid. -/
def testRenderer : Renderer :=
  { chunkMap := [((0, 0, 0), { startc := (0, 0, 0), endc := (3, 3, 3), dirty := false, buffer := none })],
    chunkLoadQueue := [], eventQueue := [], chunkSize := 16,
    loadDistance := 3, unloadDistance := 5, maxChunksPerFrame := 2 }

def c4World : World :=
  { sx := 1, sy := 1, sz := 2, blocks := [[[BLOCK.DIRT, BLOCK.DIRT]]],
    lightmap := [[0]], spawnPoint := (0, 0, 0) }

def c4WitnessWorld : World :=
  { sx := 2, sy := 1, sz := 3,
    blocks := (List.range 2).map (fun _ => (List.range 1).map (fun _ =>
      (List.range 3).map (fun _ => BLOCK.AIR))),
    lightmap := [[2], [2]], spawnPoint := (0, 0, 0) }

/-- A 10×10×10 grid, all air except one dirt block at (5,5,5). -/
def dirtWorld : World :=
  { sx := 10, sy := 10, sz := 10,
    blocks := (List.range 10).map (fun x => (List.range 10).map (fun y =>
      (List.range 10).map (fun z =>
        if x = 5 ∧ y = 5 ∧ z = 5 then BLOCK.DIRT else BLOCK.AIR))),
    lightmap := (List.range 10).map (fun _ => (List.range 10).map (fun _ => 9)),
    spawnPoint := (5, 5, 6) }

/-- The chunk covering `dirtWorld` (as `createChunk 0 0 0` with chunk size 16
clips it). -/
def dirtChunk : Chunk :=
  { startc := (0, 0, 0), endc := (10, 10, 10), dirty := true, buffer := none }

/-- A 10×10×10 grid with two adjacent dirt blocks at (5,5,5) and (6,5,5). -/
def adjWorld : World :=
  { sx := 10, sy := 10, sz := 10,
    blocks := (List.range 10).map (fun x => (List.range 10).map (fun y =>
      (List.range 10).map (fun z =>
        if (x = 5 ∨ x = 6) ∧ y = 5 ∧ z = 5 then BLOCK.DIRT else BLOCK.AIR))),
    lightmap := (List.range 10).map (fun _ => (List.range 10).map (fun _ => 9)),
    spawnPoint := (5, 5, 6) }

/-- A 1×1×2 grid: water below an opaque dirt block. -/
def waterWorld : World :=
  { sx := 1, sy := 1, sz := 2, blocks := [[[BLOCK.WATER, BLOCK.DIRT]]],
    lightmap := [[1]], spawnPoint := (0, 0, 1) }

def cexProj : Mat4 := perspectiveNO 1 1 (1/10) 1000
def cexView : Mat4 := viewMatrix 0 (-1) 1 0 1 0 (8, 319/20, 8)
def cexPlanes : Fin 6 → Plane := updateFrustumPlanes cexProj cexView
def cexCamChunk : Chunk := { startc := (0,0,0), endc := (16,16,16), dirty := false, buffer := none }


-- ### Streaming and generation fixtures

def streamWorld : World :=
  { sx := 100, sy := 100, sz := 50, blocks := [], lightmap := [], spawnPoint := (0, 0, 0) }

def streamRenderer : Renderer :=
  { chunkMap := [((6, 0, 0),
      { startc := (96, 0, 0), endc := (100, 16, 16), dirty := false, buffer := some 36 })],
    chunkLoadQueue := [], eventQueue := [], chunkSize := 16,
    loadDistance := 3, unloadDistance := 5, maxChunksPerFrame := 2 }

def cosStub : ℚ → ℚ := fun q => if q = 0 then 1 else -1

def sinStub : ℚ → ℚ := fun _ => 0

def sqrtStub : ℚ → ℚ := fun q => if q ≤ 9 then 3 else if q ≤ 25 then 5 else 6

def noiseZero : ℚ → ℚ → ℚ → ℚ := fun _ _ _ => 0

def perlinZero : ℚ → ℚ → ℚ → ℚ := fun _ _ _ => 0

def randZero : Nat → ℚ := fun _ => 0

def randNine : Nat → ℚ := fun _ => 9 / 10

def colIdx5 (x y : Nat) : Nat := x * 5 + y

def treeCell (x y z : Nat) : Option Block :=
  let dx : Int := (x : Int) - 2
  let dy : Int := (y : Int) - 2
  if x = 2 ∧ y = 2 ∧ 9 ≤ z ∧ z ≤ 13 then some BLOCK.WOOD
  else if (z = 11 ∨ z = 14) ∧ dx * dx + dy * dy ≤ 2 then some BLOCK.LEAVES
  else if (z = 12 ∨ z = 13) ∧ dx * dx + dy * dy ≤ 6 then some BLOCK.LEAVES
  else none

def stateAfterZ (k : Nat) : GenSt :=
  { blocks := (List.range 5).map (fun x => (List.range 5).map (fun y =>
      (List.range 16).map (fun z =>
        let base := if colIdx5 x y < k then columnBlock 8 9 z
          else if z = 0 then BLOCK.BEDROCK else BLOCK.AIR
        if 13 ≤ k ∧ (colIdx5 x y ≤ 12 ∨ k ≤ colIdx5 x y) then
          match treeCell x y z with
          | some b => b
          | none => base
        else base))),
    ridx := k + (if 13 ≤ k then 1 else 0) }

def stateAfterN (k : Nat) : GenSt :=
  { blocks := (List.range 5).map (fun x => (List.range 5).map (fun y =>
      (List.range 16).map (fun z =>
        if colIdx5 x y < k then columnBlock 8 9 z
        else if z = 0 then BLOCK.BEDROCK else BLOCK.AIR))),
    ridx := k }

end WebCraft


-- ## Theorems

namespace WebCraft

theorem getD_modify (l : List α) (f : α → α) (i j : Nat) (d : α) :
    (l.modify f i).getD j d = if i = j ∧ j < l.length then f (l.getD j d) else l.getD j d := by
  rcases eq_or_ne i j with h | h
  · subst h
    rcases Nat.lt_or_ge i l.length with hl | hl
    · simp [List.getD, List.getElem?_modify, List.getElem?_eq_getElem hl, hl]
    · simp [List.getD, List.getElem?_modify, List.getElem?_eq_none (by omega : l.length ≤ i), Nat.not_lt.2 hl]
  · simp [List.getD, List.getElem?_modify, h]

theorem getD_set (l : List α) (a : α) (i j : Nat) (d : α) :
    (l.set i a).getD j d = if i = j ∧ j < l.length then a else l.getD j d := by
  rcases eq_or_ne i j with h | h
  · subst h
    rcases Nat.lt_or_ge i l.length with hl | hl
    · simp [List.getD, List.getElem?_set, hl]
    · simp [List.getD, List.getElem?_set, Nat.not_lt.2 hl, List.set_eq_of_length_le hl]
  · simp [List.getD, List.getElem?_set, h]

theorem bget_bset_ne (bs : Blocks) (x y z a b2 c : Nat) (v : Block)
    (h : ¬(a = x ∧ b2 = y ∧ c = z)) :
    bget (bset bs x y z v) a b2 c = bget bs a b2 c := by
  unfold bget bset
  rcases eq_or_ne x a with hax | hax
  · subst hax
    rw [getD_modify]
    split
    · rcases eq_or_ne y b2 with hby | hby
      · subst hby
        rw [getD_modify]
        split
        · rcases eq_or_ne z c with hcz | hcz
          · exact absurd ⟨rfl, rfl, hcz.symm⟩ h
          · rw [getD_set]; simp [hcz]
        · rfl
      · rw [getD_modify]; simp [hby]
    · rfl
  · rw [getD_modify]; simp [hax]

theorem bget_bset_eq (bs : Blocks) (x y z : Nat) (v : Block)
    (hx : x < bs.length) (hy : y < (bs.getD x []).length)
    (hz : z < ((bs.getD x []).getD y []).length) :
    bget (bset bs x y z v) x y z = v := by
  unfold bget bset
  rw [getD_modify, if_pos ⟨rfl, hx⟩, getD_modify, if_pos ⟨rfl, hy⟩, getD_set,
    if_pos ⟨rfl, hz⟩]

theorem validateBlock_idem (b : Block) :
    validateBlock (some (validateBlock (some b))) = validateBlock (some b) := by
  unfold validateBlock BLOCK.validateBlockType
  by_cases h0 : b.id = BLOCK.AIR.id
  · simp [h0]
  · by_cases hr : b.rentgenView <;> by_cases hx2 : b.xray <;> simp [h0, hr, hx2]

theorem bounds_of_wf (w : World) (x y z : Int) (hWF : wellFormed w = true)
    (hin : isInBounds w x y z = true) :
    x.toNat < w.blocks.length ∧ y.toNat < (w.blocks.getD x.toNat []).length ∧
      z.toNat < ((w.blocks.getD x.toNat []).getD y.toNat []).length := by
  unfold wellFormed at hWF
  unfold isInBounds at hin
  simp only [Bool.and_eq_true, decide_eq_true_eq, List.all_eq_true] at hWF hin
  obtain ⟨hlen, hplanes⟩ := hWF
  obtain ⟨⟨⟨⟨⟨hx0, hxs⟩, hy0⟩, hys⟩, hz0⟩, hzs⟩ := hin
  have hx : x.toNat < w.blocks.length := by omega
  refine ⟨hx, ?_, ?_⟩
  · have hmem : w.blocks.getD x.toNat [] ∈ w.blocks := by
      rw [List.getD_eq_getElem w.blocks [] hx]
      exact List.getElem_mem hx
    obtain ⟨hpl, _⟩ := hplanes _ hmem
    omega
  · have hmem : w.blocks.getD x.toNat [] ∈ w.blocks := by
      rw [List.getD_eq_getElem w.blocks [] hx]
      exact List.getElem_mem hx
    obtain ⟨hpl, hcols⟩ := hplanes _ hmem
    have hy : y.toNat < (w.blocks.getD x.toNat []).length := by omega
    have hmem2 : (w.blocks.getD x.toNat []).getD y.toNat [] ∈ w.blocks.getD x.toNat [] := by
      rw [List.getD_eq_getElem _ [] hy]
      exact List.getElem_mem hy
    have := hcols _ hmem2
    omega

/-- C10: in bounds, `setBlock` succeeds and modifies only the target cell,
leaving the dimensions, lightmap, spawn point and every other cell unchanged;
out of bounds it returns `false` with the entire state unchanged. -/
theorem setBlock_frame (w : World) (r : Option Renderer) (x y z : Int) (b : Block)
    (hWF : wellFormed w = true) :
    (isInBounds w x y z = true →
      ∃ w2 r2, setBlock w r x y z (some b) = .ok (true, w2, r2) ∧
        w2.sx = w.sx ∧ w2.sy = w.sy ∧ w2.sz = w.sz ∧
        w2.lightmap = w.lightmap ∧ w2.spawnPoint = w.spawnPoint ∧
        bget w2.blocks x.toNat y.toNat z.toNat =
          (if b.xray then { b with transparent := true } else validateBlock (some b)) ∧
        (∀ a b2 c : Nat, ¬(a = x.toNat ∧ b2 = y.toNat ∧ c = z.toNat) →
          bget w2.blocks a b2 c = bget w.blocks a b2 c)) ∧
    (isInBounds w x y z = false → setBlock w r x y z (some b) = .ok (false, w, r)) := by
  constructor
  · intro hin
    obtain ⟨hx, hy, hz⟩ := bounds_of_wf w x y z hWF hin
    unfold setBlock
    rw [hin]
    simp only [Bool.not_true, Bool.false_eq_true, if_false]
    refine ⟨_, _, rfl, rfl, rfl, rfl, rfl, rfl, ?_, ?_⟩
    · exact bget_bset_eq _ _ _ _ _ hx hy hz
    · intro a b2 c hne
      exact bget_bset_ne _ _ _ _ _ _ _ _ hne
  · intro hout
    unfold setBlock
    rw [hout]
    simp

/-- Witness for `setBlock_frame` at a concrete input. -/
theorem setBlock_frame_witness :
    (isInBounds testWorld 1 1 1 = true →
      ∃ w2 r2, setBlock testWorld (some testRenderer) 1 1 1 (some BLOCK.DIRT) = .ok (true, w2, r2) ∧
        w2.sx = testWorld.sx ∧ w2.sy = testWorld.sy ∧ w2.sz = testWorld.sz ∧
        w2.lightmap = testWorld.lightmap ∧ w2.spawnPoint = testWorld.spawnPoint ∧
        bget w2.blocks 1 1 1 =
          (if BLOCK.DIRT.xray then { BLOCK.DIRT with transparent := true } else validateBlock (some BLOCK.DIRT)) ∧
        (∀ a b2 c : Nat, ¬(a = 1 ∧ b2 = 1 ∧ c = 1) →
          bget w2.blocks a b2 c = bget testWorld.blocks a b2 c)) ∧
    (isInBounds testWorld 1 1 1 = false →
      setBlock testWorld (some testRenderer) 1 1 1 (some BLOCK.DIRT) = .ok (false, testWorld, some testRenderer)) :=
  setBlock_frame testWorld (some testRenderer) 1 1 1 BLOCK.DIRT (by decide)

theorem setBlock_eq_in (w : World) (r : Renderer) (x y z : Int) (b : Block)
    (hin : isInBounds w x y z = true) (hxr : b.xray = false) :
    setBlock w (some r) x y z (some b) =
      .ok (true, { w with blocks := bset w.blocks x.toNat y.toNat z.toNat (validateBlock (some b)) },
           some (onBlockChanged r x y z)) := by
  unfold setBlock
  rw [hin]
  simp [hxr]

theorem getBlock_cond_of_inBounds (w : World) (x y z : Int) (hin : isInBounds w x y z = true) :
    (x < 0 || y < 0 || z < 0 || (w.sx : Int) ≤ x || (w.sy : Int) ≤ y || (w.sz : Int) ≤ z) = false := by
  unfold isInBounds at hin
  simp only [Bool.and_eq_true, decide_eq_true_eq] at hin
  simp only [Bool.or_eq_false_iff, decide_eq_false_iff_not]
  omega

/-- C2 (amended): in bounds, `setBlock` writes the validated block (readable
back through `getBlock`), leaves the lightmap untouched, leaves the chunk map
(including every dirty flag) untouched, appends one `blockChanged` event to
the renderer queue, and returns `true`; out of bounds it is a no-op returning
`false`; a `null` block raises; `validateBlock` maps malformed input to the
`AIR` template. -/
theorem setBlock_amended (w : World) (r : Renderer) (x y z : Int) (b : Block)
    (hWF : wellFormed w = true) (hxr : b.xray = false) :
    (isInBounds w x y z = true →
      ∃ w2 r2, setBlock w (some r) x y z (some b) = .ok (true, w2, some r2) ∧
        getBlock w2 x y z = some (validateBlock (some b)) ∧
        w2.lightmap = w.lightmap ∧
        r2.chunkMap = r.chunkMap ∧
        r2.eventQueue = r.eventQueue ++ [(x, y, z)]) ∧
    (isInBounds w x y z = false → setBlock w (some r) x y z (some b) = .ok (false, w, some r)) ∧
    (isInBounds w x y z = true →
      setBlock w (some r) x y z none = .error "TypeError: Cannot read properties of null (reading xray)") ∧
    validateBlock none = BLOCK.AIR := by
  refine ⟨?_, ?_, ?_, rfl⟩
  · intro hin
    obtain ⟨hx, hy, hz⟩ := bounds_of_wf w x y z hWF hin
    refine ⟨_, _, setBlock_eq_in w r x y z b hin hxr, ?_, rfl, rfl, rfl⟩
    unfold getBlock
    rw [getBlock_cond_of_inBounds _ x y z hin]
    simp only [Bool.false_eq_true, if_false]
    rw [bget_bset_eq _ _ _ _ _ hx hy hz, validateBlock_idem]
  · intro hout
    unfold setBlock
    rw [hout]
    simp
  · intro hin
    unfold setBlock
    rw [hin]
    simp

/-- Witness for `setBlock_amended` at a concrete input. -/
theorem setBlock_amended_witness :
    (isInBounds testWorld 1 1 1 = true →
      ∃ w2 r2, setBlock testWorld (some testRenderer) 1 1 1 (some BLOCK.DIRT) = .ok (true, w2, some r2) ∧
        getBlock w2 1 1 1 = some (validateBlock (some BLOCK.DIRT)) ∧
        w2.lightmap = testWorld.lightmap ∧
        r2.chunkMap = testRenderer.chunkMap ∧
        r2.eventQueue = testRenderer.eventQueue ++ [(1, 1, 1)]) ∧
    (isInBounds testWorld 1 1 1 = false →
      setBlock testWorld (some testRenderer) 1 1 1 (some BLOCK.DIRT) = .ok (false, testWorld, some testRenderer)) ∧
    (isInBounds testWorld 1 1 1 = true →
      setBlock testWorld (some testRenderer) 1 1 1 none = .error "TypeError: Cannot read properties of null (reading xray)") ∧
    validateBlock none = BLOCK.AIR :=
  setBlock_amended testWorld testRenderer 1 1 1 BLOCK.DIRT (by decide) (by decide)

/-- C2 counterexample: placing `DIRT` at (1,1,1) of the all-air 3×3×3 world
succeeds, but the stored lightmap at column (1,1) remains 2 while the lighting
rule applied to the updated column gives 1, and the renderer state after the
call differs from before only in the event queue — no chunk is marked dirty. -/
theorem setBlock_lightmap_dirty_cex :
    (setBlock testWorld (some testRenderer) 1 1 1 (some BLOCK.DIRT)).isOk = true ∧
    ((setBlockWorld testWorld (some testRenderer) 1 1 1 (some BLOCK.DIRT)).lightmap.getD 1 []).getD 1 0 = 2 ∧
    columnLight (setBlockWorld testWorld (some testRenderer) 1 1 1 (some BLOCK.DIRT)).blocks 3 1 1 = 1 ∧
    (2 : Nat) ≠ 1 ∧
    setBlockRenderer testWorld (some testRenderer) 1 1 1 (some BLOCK.DIRT) =
      some { testRenderer with eventQueue := [(1, 1, 1)] } := by decide

theorem bset_bset (bs : Blocks) (x y z : Nat) (v : Block) :
    bset (bset bs x y z v) x y z v = bset bs x y z v := by
  unfold bset
  rw [List.modify_modify_eq]
  congr 1
  funext plane
  simp only [Function.comp_apply]
  rw [List.modify_modify_eq]
  congr 1
  funext col
  simp only [Function.comp_apply]
  rw [List.set_set]

theorem template_validate :
    ∀ b ∈ BLOCK.blockTypes, validateBlock (some b) = b ∧ b.xray = false := by decide

/-- C3 (amended): for an in-bounds cell and a template block, `getBlock` right
after `setBlock` returns that block; a second identical `setBlock` leaves the
`World` exactly as the first call left it; each of the two calls appends one
`blockChanged` event to the renderer queue and neither touches the chunk map
(so no dirty flag is ever set). -/
theorem setBlock_get_idem (w : World) (r : Renderer) (x y z : Int) (b : Block)
    (hWF : wellFormed w = true) (hb : b ∈ BLOCK.blockTypes) (hin : isInBounds w x y z = true) :
    getBlock (setBlockWorld w (some r) x y z (some b)) x y z = some b ∧
    setBlockWorld (setBlockWorld w (some r) x y z (some b))
        (setBlockRenderer w (some r) x y z (some b)) x y z (some b) =
      setBlockWorld w (some r) x y z (some b) ∧
    setBlockRenderer (setBlockWorld w (some r) x y z (some b))
        (setBlockRenderer w (some r) x y z (some b)) x y z (some b) =
      some { r with eventQueue := r.eventQueue ++ [(x, y, z), (x, y, z)] } := by
  obtain ⟨hv, hxr⟩ := template_validate b hb
  obtain ⟨hx, hy, hz⟩ := bounds_of_wf w x y z hWF hin
  have h1 := setBlock_eq_in w r x y z b hin hxr
  have hw1 : setBlockWorld w (some r) x y z (some b) =
      { w with blocks := bset w.blocks x.toNat y.toNat z.toNat (validateBlock (some b)) } := by
    unfold setBlockWorld
    rw [h1]
  have hr1 : setBlockRenderer w (some r) x y z (some b) = some (onBlockChanged r x y z) := by
    unfold setBlockRenderer
    rw [h1]
  have hin2 : isInBounds { w with blocks := bset w.blocks x.toNat y.toNat z.toNat (validateBlock (some b)) } x y z = true := hin
  have h2 := setBlock_eq_in { w with blocks := bset w.blocks x.toNat y.toNat z.toNat (validateBlock (some b)) }
    (onBlockChanged r x y z) x y z b hin2 hxr
  refine ⟨?_, ?_, ?_⟩
  · rw [hw1]
    unfold getBlock
    rw [getBlock_cond_of_inBounds _ x y z hin]
    simp only [Bool.false_eq_true, if_false]
    rw [bget_bset_eq _ _ _ _ _ hx hy hz, validateBlock_idem, hv]
  · rw [hw1, hr1]
    unfold setBlockWorld
    rw [h2]
    simp only
    rw [bset_bset]
  · rw [hw1, hr1]
    unfold setBlockRenderer
    rw [h2]
    unfold onBlockChanged
    simp

/-- Witness for `setBlock_get_idem` at a concrete input. -/
theorem setBlock_get_idem_witness :
    getBlock (setBlockWorld testWorld (some testRenderer) 1 1 1 (some BLOCK.DIRT)) 1 1 1 = some BLOCK.DIRT ∧
    setBlockWorld (setBlockWorld testWorld (some testRenderer) 1 1 1 (some BLOCK.DIRT))
        (setBlockRenderer testWorld (some testRenderer) 1 1 1 (some BLOCK.DIRT)) 1 1 1 (some BLOCK.DIRT) =
      setBlockWorld testWorld (some testRenderer) 1 1 1 (some BLOCK.DIRT) ∧
    setBlockRenderer (setBlockWorld testWorld (some testRenderer) 1 1 1 (some BLOCK.DIRT))
        (setBlockRenderer testWorld (some testRenderer) 1 1 1 (some BLOCK.DIRT)) 1 1 1 (some BLOCK.DIRT) =
      some { testRenderer with eventQueue := testRenderer.eventQueue ++ [(1, 1, 1), (1, 1, 1)] } :=
  setBlock_get_idem testWorld testRenderer 1 1 1 BLOCK.DIRT (by decide) (by decide) (by decide)

/-- C3 counterexample: after one successful `setBlock`, the owning chunk's
dirty flag is still `false` (the claim requires it to be marked dirty), and a
second identical call changes the renderer state again (the event queue grows),
so the pair of calls does not leave the state of a single call. -/
theorem setBlock_dirty_cex :
    ((setBlockRenderer testWorld (some testRenderer) 1 1 1 (some BLOCK.DIRT)).map
      (fun rr => (rr.chunkMap.lookup (0, 0, 0)).map Chunk.dirty)) = some (some false) ∧
    setBlockRenderer (setBlockWorld testWorld (some testRenderer) 1 1 1 (some BLOCK.DIRT))
        (setBlockRenderer testWorld (some testRenderer) 1 1 1 (some BLOCK.DIRT)) 1 1 1 (some BLOCK.DIRT) ≠
      setBlockRenderer testWorld (some testRenderer) 1 1 1 (some BLOCK.DIRT) := by decide

theorem getD_map_range (n : Nat) (f : Nat → α) (i : Nat) (d : α) (h : i < n) :
    ((List.range n).map f).getD i d = f i := by
  rw [List.getD_eq_getElem _ d (by simpa using h)]
  simp

theorem range_flatten (a b : Nat) (g : Nat → α) :
    (List.range a).flatMap (fun i => (List.range b).map (fun j => g (i * b + j))) =
    (List.range (a * b)).map g := by
  induction a with
  | zero => simp
  | succ n ih =>
    rw [List.range_succ, List.flatMap_append, ih, Nat.succ_mul, List.range_add,
      List.map_append, List.map_map]
    simp [Function.comp_def]

theorem map_getD_self (l : List α) (d : α) :
    (List.range l.length).map (fun i => l.getD i d) = l := by
  apply List.ext_getElem
  · simp
  · intro i h1 h2
    simp [List.getD, List.getElem?_eq_getElem h2]

theorem flatMap_congr (l : List α) (f g : α → List β) (h : ∀ a ∈ l, f a = g a) :
    l.flatMap f = l.flatMap g := by
  induction l with
  | nil => rfl
  | cons a t ih =>
    simp only [List.flatMap_cons]
    rw [h a (List.mem_cons_self a t), ih (fun b hb => h b (List.mem_cons_of_mem a hb))]

theorem fromId_id : ∀ k ∈ List.range 22, (validateBlock (some (BLOCK.fromId (k : Int)))).id = k := by
  decide

theorem char_roundtrip (c : Char) (h1 : 97 ≤ c.toNat) (h2 : c.toNat ≤ 118) :
    Char.ofNat (97 + (validateBlock (some (BLOCK.fromId ((c.toNat : Int) - 97)))).id) = c := by
  have hcast : ((c.toNat : Int) - 97) = ((c.toNat - 97 : Nat) : Int) := by omega
  rw [hcast, fromId_id (c.toNat - 97) (List.mem_range.2 (by omega))]
  have : 97 + (c.toNat - 97) = c.toNat := by omega
  rw [this, Char.ofNat_toNat]

theorem idx_lt (x y z a b c : Nat) (hx : x < a) (hy : y < b) (hz : z < c) :
    x * (b * c) + y * c + z < a * (b * c) := by
  have h1 : y * c + z < b * c := by
    calc y * c + z < y * c + c := by omega
    _ = (y + 1) * c := by ring
    _ ≤ b * c := Nat.mul_le_mul_right c hy
  calc x * (b * c) + y * c + z < x * (b * c) + b * c := by omega
  _ = (x + 1) * (b * c) := by ring
  _ ≤ a * (b * c) := Nat.mul_le_mul_right (b * c) hx

/-- The serialization of the block array that `createFromString` builds from a
valid string is that string again. -/
theorem toNetworkString_rebuild (w : World) (s : String)
    (hlen : s.length = w.sx * w.sy * w.sz)
    (hchars : ∀ c ∈ s.data, 97 ≤ c.toNat ∧ c.toNat ≤ 118) :
    toNetworkString { w with blocks := (List.range w.sx).map (fun x => (List.range w.sy).map (fun y =>
      (List.range w.sz).map (fun z =>
        BLOCK.fromId (charCodeAt s (x * (w.sy * w.sz) + y * w.sz + z) - 97)))) } = s := by
  have hdl : s.data.length = w.sx * (w.sy * w.sz) := by
    have hsd : s.length = s.data.length := rfl
    rw [← hsd, hlen, Nat.mul_assoc]
  unfold toNetworkString cellsInOrder
  conv_rhs => rw [show s = String.mk s.data from rfl]
  congr 1
  have h1 : ((List.range w.sx).flatMap (fun x => (List.range w.sy).flatMap (fun y =>
        (List.range w.sz).map (fun z => bget { w with blocks := (List.range w.sx).map (fun x => (List.range w.sy).map (fun y =>
          (List.range w.sz).map (fun z =>
            BLOCK.fromId (charCodeAt s (x * (w.sy * w.sz) + y * w.sz + z) - 97)))) }.blocks x y z)))).map
      (fun b => Char.ofNat (97 + (validateBlock (some b)).id)) =
      (List.range w.sx).flatMap (fun x => (List.range w.sy).flatMap (fun y =>
        (List.range w.sz).map (fun z => s.data.getD (x * (w.sy * w.sz) + (y * w.sz + z)) ' '))) := by
    rw [List.map_flatMap]
    apply flatMap_congr
    intro x hx
    rw [List.map_flatMap]
    apply flatMap_congr
    intro y hy
    rw [List.map_map]
    apply List.map_congr_left
    intro z hz
    simp only [Function.comp_apply]
    have hxl := List.mem_range.1 hx
    have hyl := List.mem_range.1 hy
    have hzl := List.mem_range.1 hz
    unfold bget
    rw [getD_map_range _ _ _ _ hxl, getD_map_range _ _ _ _ hyl, getD_map_range _ _ _ _ hzl]
    have hidx : x * (w.sy * w.sz) + y * w.sz + z < s.data.length := by
      rw [hdl]
      exact idx_lt x y z w.sx w.sy w.sz hxl hyl hzl
    have hmem : s.data.getD (x * (w.sy * w.sz) + y * w.sz + z) ' ' ∈ s.data := by
      rw [List.getD_eq_getElem s.data ' ' hidx]
      exact List.getElem_mem hidx
    obtain ⟨hc1, hc2⟩ := hchars _ hmem
    have := char_roundtrip (s.data.getD (x * (w.sy * w.sz) + y * w.sz + z) ' ') hc1 hc2
    rw [show charCodeAt s (x * (w.sy * w.sz) + y * w.sz + z) =
      ((s.data.getD (x * (w.sy * w.sz) + y * w.sz + z) ' ').toNat : Int) from rfl]
    rw [this, Nat.add_assoc]
  rw [h1]
  have h2 : ∀ x ∈ List.range w.sx,
      ((List.range w.sy).flatMap (fun y =>
        (List.range w.sz).map (fun z => s.data.getD (x * (w.sy * w.sz) + (y * w.sz + z)) ' '))) =
      (List.range (w.sy * w.sz)).map (fun k => s.data.getD (x * (w.sy * w.sz) + k) ' ') := by
    intro x hx
    exact range_flatten w.sy w.sz (fun k => s.data.getD (x * (w.sy * w.sz) + k) ' ')
  rw [flatMap_congr _ _ _ h2, range_flatten w.sx (w.sy * w.sz) (fun i => s.data.getD i ' '), ← hdl]
  exact map_getD_self s.data ' '

/-- C4 (amended): deserialize-then-serialize returns the input exactly for
every string of the right length whose characters all encode defined block
ids (char codes 97–118); deserialization rejects any other length with the
size-mismatch error; both directions traverse cells x outer, then y, then z,
one byte per cell with ASCII offset 97.  (A character outside 97–118 decodes
to the default id-0 block and re-serializes as character 97, so the roundtrip
of the claim fails on it, see `roundtrip_cex`.) -/
theorem createFromString_toNetworkString (w : World) (s : String) :
    (s.length = w.sx * w.sy * w.sz →
      (∀ c ∈ s.data, 97 ≤ c.toNat ∧ c.toNat ≤ 118) →
      ∃ w2, createFromString w s = .ok w2 ∧ toNetworkString w2 = s) ∧
    (s.length ≠ w.sx * w.sy * w.sz →
      createFromString w s = .error "String length does not match world dimensions.") := by
  constructor
  · intro hlen hchars
    refine ⟨_, ?_, toNetworkString_rebuild w s hlen hchars⟩
    unfold createFromString
    rw [if_neg (by omega)]
  · intro hne
    unfold createFromString
    rw [if_pos hne]

/-- Witness for `createFromString_toNetworkString` at a concrete input. -/
theorem createFromString_toNetworkString_witness :
    (let s := "abcuvd"
     ∃ w2, createFromString c4WitnessWorld s = .ok w2 ∧ toNetworkString w2 = s) ∧
    createFromString c4WitnessWorld "abc" = .error "String length does not match world dimensions." :=
  ⟨(createFromString_toNetworkString c4WitnessWorld "abcuvd").1 (by decide) (by decide),
   (createFromString_toNetworkString c4WitnessWorld "abc").2 (by decide)⟩

/-- C4 counterexample: a string of the right length whose characters do not
all encode block ids fails the claimed roundtrip — deserializing "zz" into the
1×1×2 world succeeds, but serializing again yields "aa", not "zz". -/
theorem roundtrip_cex :
    "zz".length = c4World.sx * c4World.sy * c4World.sz ∧
    ((createFromString c4World "zz").toOption.map toNetworkString) = some "aa" ∧ "aa" ≠ "zz" := by
  decide

set_option maxRecDepth 10000 in
/-- C5 (amended): a face of an in-bounds non-air cell is emitted iff the
neighbor on that side is transparent, the face lies on the world edge, or —
for the top face only — the cell itself is a fluid; consequently the all-air
grid with a single dirt block yields exactly 6 faces for its chunk, and two
adjacent opaque cells emit no face on their shared boundary. -/
theorem pushVertices_spec (w : World) (x y z : Nat) (dir : Direction)
    (hnz : (bget w.blocks x y z).id ≠ BLOCK.AIR.id) :
    (dir ∈ pushVertices w x y z ↔ specFaceVisible w x y z dir = true) ∧
    buildChunkFaces dirtWorld dirtChunk = 6 ∧
    Direction.RIGHT ∉ pushVertices adjWorld 5 5 5 ∧
    Direction.LEFT ∉ pushVertices adjWorld 6 5 5 := by
  refine ⟨?_, by decide, by decide, by decide⟩
  unfold pushVertices specFaceVisible
  rw [if_neg hnz]
  cases dir <;> simp [List.mem_append]

/-- Witness for `pushVertices_spec` at a concrete input. -/
theorem pushVertices_spec_witness :
    (Direction.UP ∈ pushVertices dirtWorld 5 5 5 ↔ specFaceVisible dirtWorld 5 5 5 Direction.UP = true) ∧
    buildChunkFaces dirtWorld dirtChunk = 6 ∧
    Direction.RIGHT ∉ pushVertices adjWorld 5 5 5 ∧
    Direction.LEFT ∉ pushVertices adjWorld 6 5 5 :=
  pushVertices_spec dirtWorld 5 5 5 Direction.UP (by decide)

/-- C5 counterexample: the top face of the water cell below a dirt block is
emitted (fluid exemption in `pushVertices`), although its upper neighbor is
opaque and the face is not on the world edge — so "emit iff the neighbor is
transparent or the world edge" fails as stated. -/
theorem pushVertices_fluid_cex :
    Direction.UP ∈ pushVertices waterWorld 0 0 0 ∧
    specFaceVisibleClaimed waterWorld 0 0 0 Direction.UP = false := by decide

theorem all_eq_false_iff (l : List α) (p : α → Bool) :
    l.all p = false ↔ ∃ x ∈ l, p x = false := by
  rw [← Bool.not_eq_true, List.all_eq_true]
  push_neg
  simp [Bool.not_eq_true]

/-- C6 (amended): the frustum test reports a chunk visible iff no single one
of the 6 planes has all 8 AABB corners strictly on its negative side — i.e.
iff every plane has some corner on its nonnegative side.  (The consequence
claimed from this — that the chunk containing the camera is never rejected —
fails: see `frustum_camera_cex`.) -/
theorem isChunkInFrustum_spec (planes : Fin 6 → Plane) (c : Chunk) :
    isChunkInFrustum planes c = true ↔
      ∀ i : Fin 6, ∃ v ∈ chunkCorners c, 0 ≤ planeDot (planes i) v := by
  unfold isChunkInFrustum
  rw [List.all_eq_true]
  constructor
  · intro h i
    have h2 := h i (List.mem_finRange i)
    rw [Bool.not_eq_true', all_eq_false_iff] at h2
    obtain ⟨v, hv, hlt⟩ := h2
    refine ⟨v, hv, ?_⟩
    have := of_decide_eq_false hlt
    exact le_of_not_lt this
  · intro h i _
    obtain ⟨v, hv, hge⟩ := h i
    rw [Bool.not_eq_true', all_eq_false_iff]
    exact ⟨v, hv, decide_eq_false (not_lt.2 hge)⟩

/-- Scaling each clip plane by a positive factor — as `vec4.normalize` does
for any nonzero plane — does not change the frustum test's verdict, which
justifies modelling `updateFrustumPlanes` without the normalization step. -/
theorem isChunkInFrustum_scale_invariant (planes : Fin 6 → Plane) (k : Fin 6 → ℚ)
    (hk : ∀ i, 0 < k i) (c : Chunk) :
    isChunkInFrustum (fun i => (k i * (planes i).1, k i * (planes i).2.1,
      k i * (planes i).2.2.1, k i * (planes i).2.2.2)) c = isChunkInFrustum planes c := by
  have hdot : ∀ (i : Fin 6) (v : ℚ × ℚ × ℚ), planeDot (k i * (planes i).1, k i * (planes i).2.1,
      k i * (planes i).2.2.1, k i * (planes i).2.2.2) v = k i * planeDot (planes i) v := by
    intro i v
    unfold planeDot
    ring
  have hiff : ∀ (i : Fin 6) (v : ℚ × ℚ × ℚ),
      (0 ≤ k i * planeDot (planes i) v) ↔ (0 ≤ planeDot (planes i) v) := by
    intro i v
    constructor
    · intro h
      nlinarith [hk i]
    · intro h
      exact mul_nonneg (le_of_lt (hk i)) h
  rcases hfr : isChunkInFrustum planes c with _ | _
  · rw [← Bool.not_eq_true] at hfr ⊢
    rw [isChunkInFrustum_spec] at hfr ⊢
    intro hcon
    apply hfr
    intro i
    obtain ⟨v, hv, hge⟩ := hcon i
    rw [hdot i v, hiff i v] at hge
    exact ⟨v, hv, hge⟩
  · rw [isChunkInFrustum_spec] at hfr ⊢
    intro i
    obtain ⟨v, hv, hge⟩ := hfr i
    refine ⟨v, hv, ?_⟩
    rw [hdot i v, hiff i v]
    exact hge

unseal Rat.add Rat.mul Rat.sub Rat.inv in
/-- C6 counterexample: the chunk `[0,16]³` contains
the camera at `(8, 15.95, 8)` (pitch = yaw = roll = 0, so the view matrix uses
cos/sin values 0, −1, 1, 0, 1, 0; tan-derived projection coefficient 1,
aspect 1, near 0.1, far 1000), yet the frustum test rejects it: every corner
lies behind the near plane. -/
theorem frustum_camera_cex :
    ((0 : ℚ) ≤ 8 ∧ (8 : ℚ) ≤ 16 ∧ (0 : ℚ) ≤ 319/20 ∧ (319/20 : ℚ) ≤ 16) ∧
    isChunkInFrustum cexPlanes cexCamChunk = false := by
  constructor
  · refine ⟨by norm_num, by norm_num, by norm_num, by norm_num⟩
  · decide


theorem coordRange_mem (p : Int) (d : Nat) (a : Int) :
    a ∈ coordRange p d ↔ p - d ≤ a ∧ a ≤ p + d := by
  unfold coordRange
  constructor
  · intro h
    obtain ⟨i, hi, hfi⟩ := List.mem_map.1 h
    rw [List.mem_range] at hi
    omega
  · intro h
    apply List.mem_map.2
    exact ⟨(a - (p - d)).toNat, List.mem_range.2 (by omega), by omega⟩

theorem sq_le_iff_abs (a b : Int) (hb : 0 ≤ b) (h : a * a ≤ b * b) : -b ≤ a ∧ a ≤ b := by
  constructor <;> nlinarith

theorem getChunkKey_origin (cs : Nat) (hcs : 0 < cs) (cx cy cz : Int) :
    getChunkKey cs (cx * cs) (cy * cs) (cz * cs) = (cx, cy, cz) := by
  unfold getChunkKey
  have hne : ((cs : Int)) ≠ 0 := by omega
  rw [Int.mul_fdiv_cancel _ hne, Int.mul_fdiv_cancel _ hne, Int.mul_fdiv_cancel _ hne]

theorem mem_buildLoadQueue (w : World) (r : Renderer) (px py pz : Int) (vv : ℚ × ℚ × ℚ)
    (sqrtF : ℚ → ℚ) (cx cy cz : Int)
    (hcs : 0 < r.chunkSize)
    (hin : isInBounds w (cx * r.chunkSize) (cy * r.chunkSize) (cz * r.chunkSize) = true)
    (hnew : r.chunkMap.lookup (cx, cy, cz) = none)
    (hd : (cx - px) * (cx - px) + (cy - py) * (cy - py) + (cz - pz) * (cz - pz) ≤
      (r.loadDistance : Int) * r.loadDistance) :
    (⟨cx * r.chunkSize, cy * r.chunkSize, cz * r.chunkSize,
      chunkPriority sqrtF vv (cx - px) (cy - py) (cz - pz)⟩ : QEntry) ∈
      buildLoadQueue w r px py pz vv sqrtF := by
  have hld : (0 : Int) ≤ r.loadDistance := by positivity
  have hx := sq_le_iff_abs (cx - px) r.loadDistance hld (by nlinarith)
  have hy := sq_le_iff_abs (cy - py) r.loadDistance hld (by nlinarith)
  have hz := sq_le_iff_abs (cz - pz) r.loadDistance hld (by nlinarith)
  unfold buildLoadQueue
  rw [List.mem_flatMap]
  refine ⟨cx, (coordRange_mem px r.loadDistance cx).2 (by omega), ?_⟩
  rw [List.mem_flatMap]
  refine ⟨cy, (coordRange_mem py r.loadDistance cy).2 (by omega), ?_⟩
  rw [List.mem_filterMap]
  refine ⟨cz, (coordRange_mem pz r.loadDistance cz).2 (by omega), ?_⟩
  rw [hin]
  simp only [Bool.not_true, Bool.false_eq_true, if_false]
  rw [if_pos hd, getChunkKey_origin r.chunkSize hcs cx cy cz, hnew]
  simp

theorem buildLoadQueue_mem_inv (w : World) (r : Renderer) (px py pz : Int) (vv : ℚ × ℚ × ℚ)
    (sqrtF : ℚ → ℚ) (e : QEntry)
    (he : e ∈ buildLoadQueue w r px py pz vv sqrtF) :
    ∃ cx cy cz : Int, e.x = cx * r.chunkSize ∧ e.y = cy * r.chunkSize ∧ e.z = cz * r.chunkSize ∧
      (cx - px) * (cx - px) + (cy - py) * (cy - py) + (cz - pz) * (cz - pz) ≤
        (r.loadDistance : Int) * r.loadDistance := by
  unfold buildLoadQueue at he
  rw [List.mem_flatMap] at he
  obtain ⟨cx, _, he⟩ := he
  rw [List.mem_flatMap] at he
  obtain ⟨cy, _, he⟩ := he
  rw [List.mem_filterMap] at he
  obtain ⟨cz, _, he⟩ := he
  refine ⟨cx, cy, cz, ?_⟩
  dsimp only at he
  split at he
  · simp at he
  · split at he
    · split at he
      · simp at he
      · rw [Option.some_inj] at he
        subst he
        simp_all
    · simp at he


theorem mapSet_keys (m : List ((Int × Int × Int) × Chunk)) (k : Int × Int × Int) (v : Chunk)
    (k2 : Int × Int × Int) (c2 : Chunk) (h : (k2, c2) ∈ mapSet m k v) :
    k2 = k ∨ ∃ c3, (k2, c3) ∈ m := by
  unfold mapSet at h
  split at h
  · rw [List.mem_map] at h
    obtain ⟨p, hp, heq⟩ := h
    by_cases hk : p.1 = k
    · rw [if_pos hk] at heq
      left
      exact (congrArg Prod.fst heq).symm
    · rw [if_neg hk] at heq
      right
      exact ⟨c2, heq ▸ hp⟩
  · rw [List.mem_append] at h
    rcases h with h | h
    · right
      exact ⟨c2, h⟩
    · left
      rw [List.mem_singleton] at h
      exact congrArg Prod.fst h

theorem mapSet_length (m : List ((Int × Int × Int) × Chunk)) (k : Int × Int × Int) (v : Chunk) :
    (mapSet m k v).length ≤ m.length + 1 := by
  unfold mapSet
  split
  · rw [List.length_map]
    omega
  · rw [List.length_append]
    simp

theorem foldl_createChunk_keys (w : World) (cs : Nat) (l : List QEntry)
    (m : List ((Int × Int × Int) × Chunk)) (P : Int × Int × Int → Prop)
    (hm : ∀ k c, (k, c) ∈ m → P k)
    (hl : ∀ e ∈ l, P (getChunkKey cs e.x e.y e.z)) :
    ∀ k c, (k, c) ∈ l.foldl (fun acc e => createChunk w cs acc e.x e.y e.z) m → P k := by
  induction l generalizing m with
  | nil => exact hm
  | cons e t ih =>
    intro k c hkc
    refine ih (createChunk w cs m e.x e.y e.z) ?_
      (fun e2 he2 => hl e2 (List.mem_cons_of_mem e he2)) k c hkc
    intro k2 c2 hm2
    unfold createChunk at hm2
    rcases mapSet_keys _ _ _ _ _ hm2 with h | ⟨c3, h⟩
    · rw [h]
      exact hl e (List.mem_cons_self e t)
    · exact hm k2 c3 h

theorem createChunk_length (w : World) (cs : Nat) (m : List ((Int × Int × Int) × Chunk))
    (x y z : Int) : (createChunk w cs m x y z).length ≤ m.length + 1 := by
  unfold createChunk
  dsimp only
  exact mapSet_length m _ _

theorem foldl_createChunk_length (w : World) (cs : Nat) (l : List QEntry)
    (m : List ((Int × Int × Int) × Chunk)) :
    (l.foldl (fun acc e => createChunk w cs acc e.x e.y e.z) m).length ≤ m.length + l.length := by
  induction l generalizing m with
  | nil => simp
  | cons e t ih =>
    calc (List.foldl (fun acc e2 => createChunk w cs acc e2.x e2.y e2.z) (createChunk w cs m e.x e.y e.z) t).length
        ≤ (createChunk w cs m e.x e.y e.z).length + t.length := ih _
      _ ≤ (m.length + 1) + t.length := by
          have h2 := createChunk_length w cs m e.x e.y e.z
          omega
      _ = m.length + (t.length + 1) := by omega
      _ = m.length + (e :: t).length := by rw [List.length_cons]

theorem evictFar_mem (r : Renderer) (px py pz : Int) (k : Int × Int × Int) (c : Chunk)
    (h : (k, c) ∈ evictFar r px py pz) :
    (k.1 - px) * (k.1 - px) + (k.2.1 - py) * (k.2.1 - py) + (k.2.2 - pz) * (k.2.2 - pz) ≤
      (r.unloadDistance : Int) * r.unloadDistance := by
  unfold evictFar at h
  have h2 := List.of_mem_filter h
  dsimp only at h2
  exact of_decide_eq_true h2

theorem jsFloor_intCast (n : Int) : jsFloor ((n : Int) : ℚ) = n := by
  unfold jsFloor
  rw [Rat.num_intCast, Rat.den_intCast]
  exact Int.fdiv_one n

theorem chunkOrigin_floor (p : Int) (cs : Nat) (hcs : 0 < cs) :
    jsFloor (((p * cs : Int) : ℚ) / (cs : ℚ)) = p := by
  have hne : (cs : ℚ) ≠ 0 := by
    exact_mod_cast Nat.pos_iff_ne_zero.1 hcs
  have h1 : (((p * cs : Int) : ℚ) / (cs : ℚ)) = ((p : Int) : ℚ) := by
    push_cast
    field_simp
  rw [h1, jsFloor_intCast]


/-- C9: one streaming pass with the camera at a chunk origin `(px, py, pz)`
(in chunk units), `loadDistance = 3`, `unloadDistance = 5`: every in-bounds
chunk coordinate not yet in the chunk map within Euclidean distance 3
(squared distance ≤ 9) is enqueued with its priority; the pass keeps exactly
the sorted queue minus the processed prefix; every entry of the resulting
chunk map is within squared distance 25 (so no chunk farther than 5 survives
— distant entries are evicted, their buffers freed); and at most
`maxChunksPerFrame` chunks are added to the map in one call. -/
theorem streaming_pass (w : World) (r : Renderer) (px py pz : Int) (camPos : ℚ × ℚ × ℚ)
    (cosF sinF sqrtF : ℚ → ℚ)
    (hld : r.loadDistance = 3) (hud : r.unloadDistance = 5) (hcs : 0 < r.chunkSize) :
    (∀ cx cy cz : Int,
      isInBounds w (cx * r.chunkSize) (cy * r.chunkSize) (cz * r.chunkSize) = true →
      r.chunkMap.lookup (cx, cy, cz) = none →
      (cx - px) * (cx - px) + (cy - py) * (cy - py) + (cz - pz) * (cz - pz) ≤ 9 →
      (⟨cx * r.chunkSize, cy * r.chunkSize, cz * r.chunkSize,
        chunkPriority sqrtF (viewVectorCode cosF sinF camPos) (cx - px) (cy - py) (cz - pz)⟩ : QEntry) ∈
        sortQueue (buildLoadQueue w r px py pz (viewVectorCode cosF sinF camPos) sqrtF)) ∧
    ((updateChunksAroundPlayer w r (((px * r.chunkSize : Int) : ℚ), ((py * r.chunkSize : Int) : ℚ),
        ((pz * r.chunkSize : Int) : ℚ)) camPos cosF sinF sqrtF).chunkLoadQueue =
      (sortQueue (buildLoadQueue w r px py pz (viewVectorCode cosF sinF camPos) sqrtF)).drop
        r.maxChunksPerFrame) ∧
    (∀ k c, (k, c) ∈ (updateChunksAroundPlayer w r (((px * r.chunkSize : Int) : ℚ),
        ((py * r.chunkSize : Int) : ℚ), ((pz * r.chunkSize : Int) : ℚ)) camPos cosF sinF sqrtF).chunkMap →
      (k.1 - px) * (k.1 - px) + (k.2.1 - py) * (k.2.1 - py) + (k.2.2 - pz) * (k.2.2 - pz) ≤ 25) ∧
    ((updateChunksAroundPlayer w r (((px * r.chunkSize : Int) : ℚ), ((py * r.chunkSize : Int) : ℚ),
        ((pz * r.chunkSize : Int) : ℚ)) camPos cosF sinF sqrtF).chunkMap.length ≤
      (evictFar r px py pz).length + r.maxChunksPerFrame) := by
  have hup : updateChunksAroundPlayer w r (((px * r.chunkSize : Int) : ℚ), ((py * r.chunkSize : Int) : ℚ),
      ((pz * r.chunkSize : Int) : ℚ)) camPos cosF sinF sqrtF =
      { r with
        chunkMap := processChunkQueue w r.chunkSize (evictFar r px py pz)
          (sortQueue (buildLoadQueue w r px py pz (viewVectorCode cosF sinF camPos) sqrtF))
          r.maxChunksPerFrame,
        chunkLoadQueue := (sortQueue (buildLoadQueue w r px py pz (viewVectorCode cosF sinF camPos) sqrtF)).drop
          r.maxChunksPerFrame } := by
    unfold updateChunksAroundPlayer
    dsimp only
    rw [chunkOrigin_floor px r.chunkSize hcs, chunkOrigin_floor py r.chunkSize hcs,
      chunkOrigin_floor pz r.chunkSize hcs]
  refine ⟨?_, ?_, ?_, ?_⟩
  · intro cx cy cz hin hnew hd
    apply (List.mergeSort_perm (buildLoadQueue w r px py pz (viewVectorCode cosF sinF camPos) sqrtF) _).mem_iff.2
    apply mem_buildLoadQueue w r px py pz _ sqrtF cx cy cz hcs hin hnew
    rw [hld]
    exact le_trans hd (by norm_num)
  · rw [hup]
  · rw [hup]
    intro k c hkc
    unfold processChunkQueue at hkc
    refine foldl_createChunk_keys w r.chunkSize _ _ (fun k2 =>
      (k2.1 - px) * (k2.1 - px) + (k2.2.1 - py) * (k2.2.1 - py) + (k2.2.2 - pz) * (k2.2.2 - pz) ≤ 25)
      ?_ ?_ k c hkc
    · intro k2 c2 hmem
      have h2 := evictFar_mem r px py pz k2 c2 hmem
      rw [hud] at h2
      exact le_trans h2 (by norm_num)
    · intro e he
      have he2 : e ∈ sortQueue (buildLoadQueue w r px py pz (viewVectorCode cosF sinF camPos) sqrtF) :=
        List.take_subset _ _ he
      have he3 : e ∈ buildLoadQueue w r px py pz (viewVectorCode cosF sinF camPos) sqrtF :=
        (List.mergeSort_perm _ _).mem_iff.1 he2
      obtain ⟨cx, cy, cz, hex, hey, hez, hd⟩ := buildLoadQueue_mem_inv w r px py pz _ sqrtF e he3
      rw [hex, hey, hez, getChunkKey_origin r.chunkSize hcs cx cy cz]
      rw [hld] at hd
      exact le_trans hd (by norm_num)
  · rw [hup]
    dsimp only
    unfold processChunkQueue
    have h1 := foldl_createChunk_length w r.chunkSize
      ((sortQueue (buildLoadQueue w r px py pz (viewVectorCode cosF sinF camPos) sqrtF)).take
        r.maxChunksPerFrame) (evictFar r px py pz)
    have h2 : ((sortQueue (buildLoadQueue w r px py pz (viewVectorCode cosF sinF camPos) sqrtF)).take
        r.maxChunksPerFrame).length ≤ r.maxChunksPerFrame := by
      rw [List.length_take]
      omega
    omega


/-- Witness for `streaming_pass` at a concrete input: the camera sits at chunk
origin (0,0,0) of a 100×100×50 world with one loaded chunk at distance 6. -/
theorem streaming_pass_witness :
    ((updateChunksAroundPlayer streamWorld streamRenderer
        (((0 * streamRenderer.chunkSize : Int) : ℚ), ((0 * streamRenderer.chunkSize : Int) : ℚ),
         ((0 * streamRenderer.chunkSize : Int) : ℚ)) (0, 0, 0) cosStub sinStub sqrtStub).chunkMap.length ≤
      (evictFar streamRenderer 0 0 0).length + streamRenderer.maxChunksPerFrame) ∧
    (⟨(1 : Int) * streamRenderer.chunkSize, (0 : Int) * streamRenderer.chunkSize,
      (0 : Int) * streamRenderer.chunkSize,
      chunkPriority sqrtStub (viewVectorCode cosStub sinStub (0, 0, 0)) (1 - 0) (0 - 0) (0 - 0)⟩ : QEntry) ∈
      sortQueue (buildLoadQueue streamWorld streamRenderer 0 0 0
        (viewVectorCode cosStub sinStub (0, 0, 0)) sqrtStub) :=
  ⟨(streaming_pass streamWorld streamRenderer 0 0 0 (0, 0, 0) cosStub sinStub sqrtStub rfl rfl
      (by decide)).2.2.2,
   (streaming_pass streamWorld streamRenderer 0 0 0 (0, 0, 0) cosStub sinStub sqrtStub rfl rfl
      (by decide)).1 1 0 0 (by decide) (by decide) (by decide)⟩

/-- C8 (code evidence): the streaming pass derives its view vector from the
camera position components `camPos[0]`, `camPos[1]` instead of the camera's
pitch and yaw.  With the camera at the origin and any orientation whose yaw
has a negative cosine (looking towards −x, e.g. yaw ≈ π), the code still
awards the +x chunk the ahead-of-view bonus (priority `sqrtF 1 - 2`), while
the pitch/yaw-derived forward vector of the spec gives it no bonus
(priority `sqrtF 1`). -/
theorem viewVector_position_bug (cosF sinF sqrtF : ℚ → ℚ) (yaw : ℚ)
    (hc0 : cosF 0 = 1) (hs0 : sinF 0 = 0) (hcy : cosF yaw < 0) :
    (∃ e ∈ buildLoadQueue streamWorld streamRenderer 0 0 0
        (viewVectorCode cosF sinF (0, 0, 0)) sqrtF,
      e.x = 16 ∧ e.y = 0 ∧ e.z = 0 ∧ e.priority = sqrtF 1 - 2) ∧
    chunkPriority sqrtF (viewVectorCode cosF sinF (0, 0, 0)) 1 0 0 = sqrtF 1 - 2 ∧
    chunkPriority sqrtF (specViewVector cosF sinF 0 yaw) 1 0 0 = sqrtF 1 ∧
    sqrtF 1 - 2 ≠ sqrtF 1 := by
  have hvv : viewVectorCode cosF sinF (0, 0, 0) = (1, 0, 0) := by
    unfold viewVectorCode
    dsimp only
    rw [hc0, hs0]
    norm_num
  have hp1 : chunkPriority sqrtF (viewVectorCode cosF sinF (0, 0, 0)) 1 0 0 = sqrtF 1 - 2 := by
    rw [hvv]
    unfold chunkPriority
    norm_num
  have hp2 : chunkPriority sqrtF (specViewVector cosF sinF 0 yaw) 1 0 0 = sqrtF 1 := by
    unfold chunkPriority specViewVector
    dsimp only
    rw [hc0, hs0]
    split
    · rename_i hlt
      exfalso
      norm_num at hlt
      linarith
    · norm_num
  refine ⟨?_, hp1, hp2, ?_⟩
  · refine ⟨_, mem_buildLoadQueue streamWorld streamRenderer 0 0 0
      (viewVectorCode cosF sinF (0, 0, 0)) sqrtF 1 0 0 (by decide) (by decide) (by decide)
      (by decide), ?_, ?_, ?_, ?_⟩
    · dsimp only
      decide
    · dsimp only
      decide
    · dsimp only
      decide
    · show chunkPriority sqrtF (viewVectorCode cosF sinF (0, 0, 0)) (1 - 0) (0 - 0) (0 - 0) = sqrtF 1 - 2
      rw [hvv]
      unfold chunkPriority
      norm_num
  · intro h
    have h2 : (2 : ℚ) = 0 := by linarith [sub_eq_self.1 h]
    norm_num at h2

/-- Witness for `viewVector_position_bug`: concrete stand-ins for cos, sin and
sqrt (agreeing with the real functions at the evaluated points: cos 0 = 1,
sin 0 = 0, and a yaw value whose cosine is negative). -/
theorem viewVector_position_bug_witness :
    (∃ e ∈ buildLoadQueue streamWorld streamRenderer 0 0 0
        (viewVectorCode cosStub sinStub (0, 0, 0)) sqrtStub,
      e.x = 16 ∧ e.y = 0 ∧ e.z = 0 ∧ e.priority = sqrtStub 1 - 2) ∧
    chunkPriority sqrtStub (viewVectorCode cosStub sinStub (0, 0, 0)) 1 0 0 = sqrtStub 1 - 2 ∧
    chunkPriority sqrtStub (specViewVector cosStub sinStub 0 3) 1 0 0 = sqrtStub 1 ∧
    sqrtStub 1 - 2 ≠ sqrtStub 1 :=
  viewVector_position_bug cosStub sinStub sqrtStub 3 (by norm_num [cosStub])
    (by norm_num [sinStub]) (by norm_num [cosStub])

/-- `findSpawnPoint` succeeds exactly when the 5×5 spawn-platform rows fit,
i.e. when both horizontal dimensions are at least 5. -/
theorem findSpawnPoint_isOk (sx sy sz : Nat) (bs : Blocks) :
    (findSpawnPoint sx sy sz bs).isOk = true ↔ (5 ≤ sx ∧ 5 ≤ sy) := by
  unfold findSpawnPoint
  dsimp only
  split
  · rename_i h
    constructor
    · intro _
      omega
    · intro _
      rfl
  · rename_i h
    constructor
    · intro hh
      simp [Except.isOk, Except.toBool] at hh
    · rintro ⟨h5x, h5y⟩
      exact absurd ⟨by omega, by omega, by omega, by omega⟩ h

/-- The `World` constructor succeeds for positive dimensions exactly when the
horizontal dimensions admit the spawn platform. -/
theorem worldNew_isOk (sxI syI szI : Int) (noise perlin : ℚ → ℚ → ℚ → ℚ) (rand : Nat → ℚ)
    (hpos : ¬(sxI ≤ 0 ∨ syI ≤ 0 ∨ szI ≤ 0)) :
    (worldNew sxI syI szI noise perlin rand).isOk = true ↔ (5 ≤ sxI ∧ 5 ≤ syI) := by
  unfold worldNew
  rw [if_neg hpos]
  dsimp only
  cases hfs : findSpawnPoint sxI.toNat syI.toNat szI.toNat
      (generateTerrainJS sxI.toNat syI.toNat szI.toNat noise perlin rand) with
  | error e =>
    have hiff := findSpawnPoint_isOk sxI.toNat syI.toNat szI.toNat
      (generateTerrainJS sxI.toNat syI.toNat szI.toNat noise perlin rand)
    rw [hfs] at hiff
    refine iff_of_false (by simp [Except.isOk, Except.toBool]) (fun h5 => ?_)
    have hbad := hiff.mpr ⟨by omega, by omega⟩
    simp [Except.isOk, Except.toBool] at hbad
  | ok sp =>
    have hiff := findSpawnPoint_isOk sxI.toNat syI.toNat szI.toNat
      (generateTerrainJS sxI.toNat syI.toNat szI.toNat noise perlin rand)
    rw [hfs] at hiff
    constructor
    · intro _
      have h5 := hiff.mp rfl
      omega
    · intro _
      rfl

/-- C7: dimension validation of `World.generateWorld`.  The two error guards of
the claim hold, but creation does NOT succeed for all positive dimensions up
to 254: it succeeds exactly when additionally both horizontal dimensions are
at least 5 (otherwise `findSpawnPoint` raises a TypeError indexing a spawn
platform row outside the grid). -/
theorem generateWorld_dims (sxI syI szI : Int) (noise perlin : ℚ → ℚ → ℚ → ℚ)
    (rand : Nat → ℚ) :
    ((generateWorld sxI syI szI noise perlin rand).isOk = true ↔
      (5 ≤ sxI ∧ sxI ≤ 254 ∧ 5 ≤ syI ∧ syI ≤ 254 ∧ 1 ≤ szI ∧ szI ≤ 254)) ∧
    ((sxI ≤ 0 ∨ syI ≤ 0 ∨ szI ≤ 0) →
      generateWorld sxI syI szI noise perlin rand =
        .error "Failed to generate world: World dimensions must be positive") ∧
    (0 < sxI → 0 < syI → 0 < szI → (254 < sxI ∨ 254 < syI ∨ 254 < szI) →
      generateWorld sxI syI szI noise perlin rand =
        .error "Failed to generate world: World dimensions cannot exceed 254") := by
  refine ⟨?_, ?_, ?_⟩
  · by_cases h1 : sxI ≤ 0 ∨ syI ≤ 0 ∨ szI ≤ 0
    · unfold generateWorld
      rw [if_pos h1]
      exact iff_of_false (by simp [Except.isOk, Except.toBool]) (by omega)
    · by_cases h2 : 254 < sxI ∨ 254 < syI ∨ 254 < szI
      · unfold generateWorld
        rw [if_neg h1, if_pos h2]
        exact iff_of_false (by simp [Except.isOk, Except.toBool]) (by omega)
      · unfold generateWorld
        rw [if_neg h1, if_neg h2]
        have hw := worldNew_isOk sxI syI szI noise perlin rand h1
        cases hws : worldNew sxI syI szI noise perlin rand with
        | error e =>
          rw [hws] at hw
          dsimp only
          refine iff_of_false (by simp [Except.isOk, Except.toBool]) (fun h5 => ?_)
          have hbad := hw.mpr ⟨by omega, by omega⟩
          simp [Except.isOk, Except.toBool] at hbad
        | ok w =>
          rw [hws] at hw
          dsimp only
          constructor
          · intro _
            have h5 := hw.mp rfl
            exact ⟨by omega, by omega, by omega, by omega, by omega, by omega⟩
          · intro _
            rfl
  · intro h1
    unfold generateWorld
    rw [if_pos h1]
  · intro hx hy hz h2
    unfold generateWorld
    rw [if_neg (by omega), if_pos h2]

unseal Rat.add Rat.mul Rat.sub Rat.inv in
/-- Counterexample to the claimed success range: the dimensions (1,1,1) are
positive and at most 254, yet creation fails (with the escaped spawn-platform
TypeError, not an invalid-dimension error). -/
theorem generateWorld_small_cex :
    (generateWorld 1 1 1 noiseZero perlinZero randZero).isOk = false ∧
    ((0 : Int) < 1 ∧ (1 : Int) ≤ 254) := by
  decide

/-- Witness for `generateWorld_dims` at concrete dimensions: both error guards
fire with their exact messages, and 5×5×16 creation succeeds. -/
theorem generateWorld_dims_witness :
    (generateWorld 0 5 5 noiseZero perlinZero randZero =
      .error "Failed to generate world: World dimensions must be positive") ∧
    (generateWorld 255 5 5 noiseZero perlinZero randZero =
      .error "Failed to generate world: World dimensions cannot exceed 254") ∧
    (generateWorld 5 5 16 noiseZero perlinZero randZero).isOk = true :=
  ⟨(generateWorld_dims 0 5 5 noiseZero perlinZero randZero).2.1 (by norm_num),
   (generateWorld_dims 255 5 5 noiseZero perlinZero randZero).2.2 (by norm_num)
     (by norm_num) (by norm_num) (by norm_num),
   (generateWorld_dims 5 5 16 noiseZero perlinZero randZero).1.mpr
     ⟨by norm_num, by norm_num, by norm_num, by norm_num, by norm_num, by norm_num⟩⟩

theorem fillInit :
    ({ blocks := bedrockFill 5 5 (airGrid 5 5 16), ridx := 0 } : GenSt) = stateAfterZ 0 := by
  decide

theorem stateZN0 : stateAfterZ 0 = stateAfterN 0 := by
  decide

unseal Rat.add Rat.mul Rat.sub Rat.inv in
theorem colStepZ0 :
    columnStep 5 5 16 noiseZero randZero 8 (9/2000) (stateAfterZ 0) 0 0 = stateAfterZ 1 := by
  decide

unseal Rat.add Rat.mul Rat.sub Rat.inv in
theorem colStepZ1 :
    columnStep 5 5 16 noiseZero randZero 8 (9/2000) (stateAfterZ 1) 0 1 = stateAfterZ 2 := by
  decide

unseal Rat.add Rat.mul Rat.sub Rat.inv in
theorem colStepZ2 :
    columnStep 5 5 16 noiseZero randZero 8 (9/2000) (stateAfterZ 2) 0 2 = stateAfterZ 3 := by
  decide

unseal Rat.add Rat.mul Rat.sub Rat.inv in
theorem colStepZ3 :
    columnStep 5 5 16 noiseZero randZero 8 (9/2000) (stateAfterZ 3) 0 3 = stateAfterZ 4 := by
  decide

unseal Rat.add Rat.mul Rat.sub Rat.inv in
theorem colStepZ4 :
    columnStep 5 5 16 noiseZero randZero 8 (9/2000) (stateAfterZ 4) 0 4 = stateAfterZ 5 := by
  decide

unseal Rat.add Rat.mul Rat.sub Rat.inv in
theorem colStepZ5 :
    columnStep 5 5 16 noiseZero randZero 8 (9/2000) (stateAfterZ 5) 1 0 = stateAfterZ 6 := by
  decide

unseal Rat.add Rat.mul Rat.sub Rat.inv in
theorem colStepZ6 :
    columnStep 5 5 16 noiseZero randZero 8 (9/2000) (stateAfterZ 6) 1 1 = stateAfterZ 7 := by
  decide

unseal Rat.add Rat.mul Rat.sub Rat.inv in
theorem colStepZ7 :
    columnStep 5 5 16 noiseZero randZero 8 (9/2000) (stateAfterZ 7) 1 2 = stateAfterZ 8 := by
  decide

unseal Rat.add Rat.mul Rat.sub Rat.inv in
theorem colStepZ8 :
    columnStep 5 5 16 noiseZero randZero 8 (9/2000) (stateAfterZ 8) 1 3 = stateAfterZ 9 := by
  decide

unseal Rat.add Rat.mul Rat.sub Rat.inv in
theorem colStepZ9 :
    columnStep 5 5 16 noiseZero randZero 8 (9/2000) (stateAfterZ 9) 1 4 = stateAfterZ 10 := by
  decide

unseal Rat.add Rat.mul Rat.sub Rat.inv in
theorem colStepZ10 :
    columnStep 5 5 16 noiseZero randZero 8 (9/2000) (stateAfterZ 10) 2 0 = stateAfterZ 11 := by
  decide

unseal Rat.add Rat.mul Rat.sub Rat.inv in
theorem colStepZ11 :
    columnStep 5 5 16 noiseZero randZero 8 (9/2000) (stateAfterZ 11) 2 1 = stateAfterZ 12 := by
  decide

set_option maxRecDepth 100000 in
unseal Rat.add Rat.mul Rat.sub Rat.inv in
theorem colStepZ12 :
    columnStep 5 5 16 noiseZero randZero 8 (9/2000) (stateAfterZ 12) 2 2 = stateAfterZ 13 := by
  decide

unseal Rat.add Rat.mul Rat.sub Rat.inv in
theorem colStepZ13 :
    columnStep 5 5 16 noiseZero randZero 8 (9/2000) (stateAfterZ 13) 2 3 = stateAfterZ 14 := by
  decide

unseal Rat.add Rat.mul Rat.sub Rat.inv in
theorem colStepZ14 :
    columnStep 5 5 16 noiseZero randZero 8 (9/2000) (stateAfterZ 14) 2 4 = stateAfterZ 15 := by
  decide

unseal Rat.add Rat.mul Rat.sub Rat.inv in
theorem colStepZ15 :
    columnStep 5 5 16 noiseZero randZero 8 (9/2000) (stateAfterZ 15) 3 0 = stateAfterZ 16 := by
  decide

unseal Rat.add Rat.mul Rat.sub Rat.inv in
theorem colStepZ16 :
    columnStep 5 5 16 noiseZero randZero 8 (9/2000) (stateAfterZ 16) 3 1 = stateAfterZ 17 := by
  decide

unseal Rat.add Rat.mul Rat.sub Rat.inv in
theorem colStepZ17 :
    columnStep 5 5 16 noiseZero randZero 8 (9/2000) (stateAfterZ 17) 3 2 = stateAfterZ 18 := by
  decide

unseal Rat.add Rat.mul Rat.sub Rat.inv in
theorem colStepZ18 :
    columnStep 5 5 16 noiseZero randZero 8 (9/2000) (stateAfterZ 18) 3 3 = stateAfterZ 19 := by
  decide

unseal Rat.add Rat.mul Rat.sub Rat.inv in
theorem colStepZ19 :
    columnStep 5 5 16 noiseZero randZero 8 (9/2000) (stateAfterZ 19) 3 4 = stateAfterZ 20 := by
  decide

unseal Rat.add Rat.mul Rat.sub Rat.inv in
theorem colStepZ20 :
    columnStep 5 5 16 noiseZero randZero 8 (9/2000) (stateAfterZ 20) 4 0 = stateAfterZ 21 := by
  decide

unseal Rat.add Rat.mul Rat.sub Rat.inv in
theorem colStepZ21 :
    columnStep 5 5 16 noiseZero randZero 8 (9/2000) (stateAfterZ 21) 4 1 = stateAfterZ 22 := by
  decide

unseal Rat.add Rat.mul Rat.sub Rat.inv in
theorem colStepZ22 :
    columnStep 5 5 16 noiseZero randZero 8 (9/2000) (stateAfterZ 22) 4 2 = stateAfterZ 23 := by
  decide

unseal Rat.add Rat.mul Rat.sub Rat.inv in
theorem colStepZ23 :
    columnStep 5 5 16 noiseZero randZero 8 (9/2000) (stateAfterZ 23) 4 3 = stateAfterZ 24 := by
  decide

unseal Rat.add Rat.mul Rat.sub Rat.inv in
theorem colStepZ24 :
    columnStep 5 5 16 noiseZero randZero 8 (9/2000) (stateAfterZ 24) 4 4 = stateAfterZ 25 := by
  decide

unseal Rat.add Rat.mul Rat.sub Rat.inv in
theorem colStepN0 :
    columnStep 5 5 16 noiseZero randNine 8 (9/2000) (stateAfterN 0) 0 0 = stateAfterN 1 := by
  decide

unseal Rat.add Rat.mul Rat.sub Rat.inv in
theorem colStepN1 :
    columnStep 5 5 16 noiseZero randNine 8 (9/2000) (stateAfterN 1) 0 1 = stateAfterN 2 := by
  decide

unseal Rat.add Rat.mul Rat.sub Rat.inv in
theorem colStepN2 :
    columnStep 5 5 16 noiseZero randNine 8 (9/2000) (stateAfterN 2) 0 2 = stateAfterN 3 := by
  decide

unseal Rat.add Rat.mul Rat.sub Rat.inv in
theorem colStepN3 :
    columnStep 5 5 16 noiseZero randNine 8 (9/2000) (stateAfterN 3) 0 3 = stateAfterN 4 := by
  decide

unseal Rat.add Rat.mul Rat.sub Rat.inv in
theorem colStepN4 :
    columnStep 5 5 16 noiseZero randNine 8 (9/2000) (stateAfterN 4) 0 4 = stateAfterN 5 := by
  decide

unseal Rat.add Rat.mul Rat.sub Rat.inv in
theorem colStepN5 :
    columnStep 5 5 16 noiseZero randNine 8 (9/2000) (stateAfterN 5) 1 0 = stateAfterN 6 := by
  decide

unseal Rat.add Rat.mul Rat.sub Rat.inv in
theorem colStepN6 :
    columnStep 5 5 16 noiseZero randNine 8 (9/2000) (stateAfterN 6) 1 1 = stateAfterN 7 := by
  decide

unseal Rat.add Rat.mul Rat.sub Rat.inv in
theorem colStepN7 :
    columnStep 5 5 16 noiseZero randNine 8 (9/2000) (stateAfterN 7) 1 2 = stateAfterN 8 := by
  decide

unseal Rat.add Rat.mul Rat.sub Rat.inv in
theorem colStepN8 :
    columnStep 5 5 16 noiseZero randNine 8 (9/2000) (stateAfterN 8) 1 3 = stateAfterN 9 := by
  decide

unseal Rat.add Rat.mul Rat.sub Rat.inv in
theorem colStepN9 :
    columnStep 5 5 16 noiseZero randNine 8 (9/2000) (stateAfterN 9) 1 4 = stateAfterN 10 := by
  decide

unseal Rat.add Rat.mul Rat.sub Rat.inv in
theorem colStepN10 :
    columnStep 5 5 16 noiseZero randNine 8 (9/2000) (stateAfterN 10) 2 0 = stateAfterN 11 := by
  decide

unseal Rat.add Rat.mul Rat.sub Rat.inv in
theorem colStepN11 :
    columnStep 5 5 16 noiseZero randNine 8 (9/2000) (stateAfterN 11) 2 1 = stateAfterN 12 := by
  decide

unseal Rat.add Rat.mul Rat.sub Rat.inv in
theorem colStepN12 :
    columnStep 5 5 16 noiseZero randNine 8 (9/2000) (stateAfterN 12) 2 2 = stateAfterN 13 := by
  decide

unseal Rat.add Rat.mul Rat.sub Rat.inv in
theorem colStepN13 :
    columnStep 5 5 16 noiseZero randNine 8 (9/2000) (stateAfterN 13) 2 3 = stateAfterN 14 := by
  decide

unseal Rat.add Rat.mul Rat.sub Rat.inv in
theorem colStepN14 :
    columnStep 5 5 16 noiseZero randNine 8 (9/2000) (stateAfterN 14) 2 4 = stateAfterN 15 := by
  decide

unseal Rat.add Rat.mul Rat.sub Rat.inv in
theorem colStepN15 :
    columnStep 5 5 16 noiseZero randNine 8 (9/2000) (stateAfterN 15) 3 0 = stateAfterN 16 := by
  decide

unseal Rat.add Rat.mul Rat.sub Rat.inv in
theorem colStepN16 :
    columnStep 5 5 16 noiseZero randNine 8 (9/2000) (stateAfterN 16) 3 1 = stateAfterN 17 := by
  decide

unseal Rat.add Rat.mul Rat.sub Rat.inv in
theorem colStepN17 :
    columnStep 5 5 16 noiseZero randNine 8 (9/2000) (stateAfterN 17) 3 2 = stateAfterN 18 := by
  decide

unseal Rat.add Rat.mul Rat.sub Rat.inv in
theorem colStepN18 :
    columnStep 5 5 16 noiseZero randNine 8 (9/2000) (stateAfterN 18) 3 3 = stateAfterN 19 := by
  decide

unseal Rat.add Rat.mul Rat.sub Rat.inv in
theorem colStepN19 :
    columnStep 5 5 16 noiseZero randNine 8 (9/2000) (stateAfterN 19) 3 4 = stateAfterN 20 := by
  decide

unseal Rat.add Rat.mul Rat.sub Rat.inv in
theorem colStepN20 :
    columnStep 5 5 16 noiseZero randNine 8 (9/2000) (stateAfterN 20) 4 0 = stateAfterN 21 := by
  decide

unseal Rat.add Rat.mul Rat.sub Rat.inv in
theorem colStepN21 :
    columnStep 5 5 16 noiseZero randNine 8 (9/2000) (stateAfterN 21) 4 1 = stateAfterN 22 := by
  decide

unseal Rat.add Rat.mul Rat.sub Rat.inv in
theorem colStepN22 :
    columnStep 5 5 16 noiseZero randNine 8 (9/2000) (stateAfterN 22) 4 2 = stateAfterN 23 := by
  decide

unseal Rat.add Rat.mul Rat.sub Rat.inv in
theorem colStepN23 :
    columnStep 5 5 16 noiseZero randNine 8 (9/2000) (stateAfterN 23) 4 3 = stateAfterN 24 := by
  decide

unseal Rat.add Rat.mul Rat.sub Rat.inv in
theorem colStepN24 :
    columnStep 5 5 16 noiseZero randNine 8 (9/2000) (stateAfterN 24) 4 4 = stateAfterN 25 := by
  decide

theorem fillZ :
    fillColumns 5 5 16 noiseZero randZero 8 (9/2000)
      { blocks := bedrockFill 5 5 (airGrid 5 5 16), ridx := 0 } = stateAfterZ 25 := by
  unfold fillColumns
  rw [show List.range 5 = [0, 1, 2, 3, 4] from rfl]
  simp only [List.foldl_cons, List.foldl_nil]
  rw [fillInit, colStepZ0, colStepZ1, colStepZ2, colStepZ3, colStepZ4, colStepZ5, colStepZ6, colStepZ7, colStepZ8, colStepZ9, colStepZ10, colStepZ11, colStepZ12, colStepZ13, colStepZ14, colStepZ15, colStepZ16, colStepZ17, colStepZ18, colStepZ19, colStepZ20, colStepZ21, colStepZ22, colStepZ23, colStepZ24]

theorem fillN :
    fillColumns 5 5 16 noiseZero randNine 8 (9/2000)
      { blocks := bedrockFill 5 5 (airGrid 5 5 16), ridx := 0 } = stateAfterN 25 := by
  unfold fillColumns
  rw [show List.range 5 = [0, 1, 2, 3, 4] from rfl]
  simp only [List.foldl_cons, List.foldl_nil]
  rw [fillInit, stateZN0, colStepN0, colStepN1, colStepN2, colStepN3, colStepN4, colStepN5, colStepN6, colStepN7, colStepN8, colStepN9, colStepN10, colStepN11, colStepN12, colStepN13, colStepN14, colStepN15, colStepN16, colStepN17, colStepN18, colStepN19, colStepN20, colStepN21, colStepN22, colStepN23, colStepN24]

set_option maxRecDepth 100000 in
set_option maxHeartbeats 4000000 in
unseal Rat.add Rat.mul Rat.sub Rat.inv in
/-- C1: terrain generation is NOT a deterministic function of the seed and the
dimensions.  The seeded `noise`/`perlin` fields are held fixed (identically
zero) and only the unseeded `Math.random()` stream differs between the two
runs (constant 0 vs constant 9/10): the generated 5×5×16 worlds serialize to
different strings, because the first run plants a tree (`Math.random() <
0.0045` per eligible column) and the second does not. -/
theorem generation_rand_dependent :
    (worldNew 5 5 16 noiseZero perlinZero randZero).toOption.map toNetworkString ≠
      (worldNew 5 5 16 noiseZero perlinZero randNine).toOption.map toNetworkString := by
  unfold worldNew
  rw [if_neg (by decide)]
  dsimp only
  rw [show ((5 : Int).toNat) = 5 from rfl, show ((16 : Int).toNat) = 16 from rfl]
  unfold generateTerrainJS
  rw [if_pos (by decide)]
  unfold generateTerrainFull
  dsimp only
  rw [show jsFloor (((16 : Nat) : ℚ) * (1/2)) = 8 from by decide]
  rw [fillZ, fillN]
  decide

end WebCraft
